import Mathlib

/-!
Verification of the rifas-backend utility scripts.

This file gives a shallow embedding of the two Python scripts of the
repository, `encode_key.py` and `migrate_to_firestore.py`, and proves the
specified properties about them.

Modelling conventions:
* JSON values are the inductive `JValue`; Python truthiness of a parsed
  JSON value is `truthy`.
* The file system seen by `load_json` is a map from file name to
  `FileState` (absent, unparseable content, or a parsed value).
* The Firestore service is external to the repository.  Every write the
  migrator attempts is recorded as a `DbOp`; its outcome (success, or an
  exception whose text is `e`) is an oracle `err : DbOp → Option String`.
  Client-side SDK staging of a batch write (`batch.set`) is modelled as
  non-raising; exceptions raised inside a `try` block are folded into the
  oracle outcome of the attempted operation.
* Pure-Python exceptions raised OUTSIDE any `try` block (for example the
  `KeyError` of `numero_item['numero']` at line 94, or iterating a
  non-iterable value) are modelled as a crash flag that aborts the rest of
  `migrate_data`, exactly as an uncaught exception would.
* Console output and database attempts are recorded in one event trace.
-/

/-- A parsed JSON value (the result of Python `json.load`). -/
inductive JValue where
  | null
  | bool (b : Bool)
  | num (n : Int)
  | str (s : String)
  | arr (elems : List JValue)
  | obj (fields : List (String × JValue))

/-- Python truthiness of a parsed JSON value (`if data:`). -/
def truthy : JValue → Bool
  | .null => false
  | .bool b => b
  | .num n => n != 0
  | .str s => s != ""
  | .arr xs => !xs.isEmpty
  | .obj fs => !fs.isEmpty

/-- Python `range(0, n, step)` for `step > 0`: the multiples of `step`
below `n`; it has exactly `⌈n / step⌉` elements. -/
def pyRange (n step : Nat) : List Nat :=
  (List.range ((n + step - 1) / step)).map (fun k => k * step)

/-- The segments `data[i:i+bs]` for `i in range(0, len(data), bs)` —
the batches built by the migrator's batching loops (lines 90-92, 144-146). -/
def segmentsOf (bs : Nat) (data : List α) : List (List α) :=
  (pyRange data.length bs).map (fun i => (data.drop i).take bs)

/-- Sanity check of `pyRange` against the semantics of Python `range`:
its members are exactly the multiples of `step` that are below `n`. -/
theorem pyRange_mem (n step : Nat) (hstep : 0 < step) (i : Nat) :
    i ∈ pyRange n step ↔ (∃ k, i = k * step) ∧ i < n := by
  unfold pyRange
  simp only [List.mem_map, List.mem_range]
  constructor
  · rintro ⟨k, hk, rfl⟩
    refine ⟨⟨k, rfl⟩, ?_⟩
    have h1 : k * step + step ≤ ((n + step - 1) / step) * step := by
      have := Nat.succ_le_of_lt hk
      calc k * step + step = (k + 1) * step := by ring
        _ ≤ ((n + step - 1) / step) * step := Nat.mul_le_mul_right step this
    have h2 : ((n + step - 1) / step) * step ≤ n + step - 1 := Nat.div_mul_le_self _ _
    omega
  · rintro ⟨⟨k, rfl⟩, hlt⟩
    refine ⟨k, ?_, rfl⟩
    have hle : (k + 1) * step ≤ n + step - 1 := by
      have h : (k + 1) * step = k * step + step := by ring
      omega
    exact (Nat.le_div_iff_mul_le hstep).mpr hle

theorem pyRange_length (n step : Nat) :
    (pyRange n step).length = (n + step - 1) / step := by
  simp [pyRange]

/-- Unfolding of `pyRange` for a nonempty range: index `0` followed by the
remaining indices shifted by `step`. -/
theorem pyRange_pos (n step : Nat) (hn : 0 < n) (hstep : 0 < step) :
    pyRange n step = 0 :: (pyRange (n - step) step).map (fun i => i + step) := by
  unfold pyRange
  have hcount : (n + step - 1) / step = (n - step + step - 1) / step + 1 := by
    rcases Nat.le_total n step with h | h
    · have h2 : n - step = 0 := by omega
      have h1 : (n + step - 1) / step = 1 :=
        Nat.div_eq_of_lt_le (by omega) (by omega)
      rw [h1, h2, Nat.zero_add]
      have h3 : (step - 1) / step = 0 := Nat.div_eq_of_lt (by omega)
      rw [h3]
    · have h1 : n + step - 1 = (n - step + step - 1) + step := by omega
      rw [h1, Nat.add_div_right _ hstep]
  rw [hcount, List.range_succ_eq_map]
  simp only [List.map_cons, Nat.zero_mul, List.map_map]
  congr 1
  apply List.map_congr_left
  intro k _
  simp only [Function.comp_apply, Nat.succ_mul]

/-- Unfolding of the batching loop: the first batch is the first `bs`
records, the remaining batches are the batches of the rest. -/
theorem segmentsOf_cons (bs : Nat) (data : List α)
    (hd : data ≠ []) (hbs : 0 < bs) :
    segmentsOf bs data = data.take bs :: segmentsOf bs (data.drop bs) := by
  unfold segmentsOf
  have hlen : 0 < data.length := List.length_pos.mpr hd
  rw [pyRange_pos data.length bs hlen hbs]
  simp only [List.map_cons, List.drop_zero, List.map_map, List.length_drop]
  congr 1
  apply List.map_congr_left
  intro i _
  simp [Function.comp_apply, List.drop_drop, Nat.add_comm]

theorem segmentsOf_nil (bs : Nat) : segmentsOf bs ([] : List α) = [] := by
  unfold segmentsOf pyRange
  have h : (0 + bs - 1) / bs = 0 := by
    rcases Nat.eq_zero_or_pos bs with rfl | hpos
    · rfl
    · exact Nat.div_eq_of_lt (by omega)
  rw [List.length_nil, h]
  rfl

/-- Every batch holds at most `bs` records. -/
theorem segmentsOf_le (bs : Nat) (data : List α) :
    ∀ b ∈ segmentsOf bs data, b.length ≤ bs := by
  intro b hb
  unfold segmentsOf at hb
  rcases List.mem_map.mp hb with ⟨i, _, rfl⟩
  simp

/-- The batches laid end to end give back the data: every record appears
in exactly one batch, in source order. -/
theorem segmentsOf_flatten (bs : Nat) (hbs : 0 < bs) (data : List α) :
    (segmentsOf bs data).flatten = data := by
  generalize hn : data.length = n
  induction n using Nat.strong_induction_on generalizing data with
  | _ n ih =>
    rcases eq_or_ne data [] with rfl | hne
    · simp [segmentsOf_nil]
    · rw [segmentsOf_cons bs data hne hbs, List.flatten_cons]
      have hlt : (data.drop bs).length < n := by
        subst hn
        rw [List.length_drop]
        have := List.length_pos.mpr hne
        omega
      rw [ih _ hlt (data.drop bs) rfl]
      exact List.take_append_drop bs data

/-! ### encode_key.py -/

/-- The base64 alphabet used by Python `base64.b64encode` (RFC 4648). -/
def b64chars : List Char :=
  "ABCDEFGHIJKLMNOPQRSTUVWXYZabcdefghijklmnopqrstuvwxyz0123456789+/".toList

/-- The alphabet character of a sextet value `n < 64`. -/
def b64char (n : Nat) : Char := b64chars.getD n 'A'

/-- `base64.b64encode` on the byte list read from the credential file
(line 13 of `encode_key.py`): each group of three bytes becomes four
alphabet characters; a final group of one or two bytes is padded with
`=` characters. -/
def b64encodeBytes : List Nat → List Char
  | [] => []
  | [a] => [b64char (a / 4), b64char (a % 4 * 16), '=', '=']
  | [a, b] =>
    [b64char (a / 4), b64char (a % 4 * 16 + b / 16), b64char (b % 16 * 4), '=']
  | a :: b :: c :: rest =>
    b64char (a / 4) :: b64char (a % 4 * 16 + b / 16) ::
      b64char (b % 16 * 4 + c / 64) :: b64char (c % 64) :: b64encodeBytes rest

/-- Modelled from the spec: the spec's round-trip law refers to
"base64-decoding" the printed text, an operation that has no
implementation in the repository; this is standard RFC 4648 base64
decoding of a padded character stream. -/
def b64decodeChars : List Char → List Nat
  | c1 :: c2 :: c3 :: c4 :: rest =>
    let s1 := b64chars.indexOf c1
    let s2 := b64chars.indexOf c2
    if c3 = '=' then [s1 * 4 + s2 / 16]
    else
      let s3 := b64chars.indexOf c3
      if c4 = '=' then [s1 * 4 + s2 / 16, s2 % 16 * 16 + s3 / 4]
      else
        let s4 := b64chars.indexOf c4
        (s1 * 4 + s2 / 16) :: (s2 % 16 * 16 + s3 / 4) :: (s3 % 4 * 64 + s4) ::
          b64decodeChars rest
  | _ => []

theorem b64chars_get (n : Nat) (h : n < 64) :
    b64chars.indexOf (b64char n) = n := by
  revert n
  decide

theorem b64char_ne_pad (n : Nat) (h : n < 64) : b64char n ≠ '=' := by
  revert n
  decide

theorem b64_decode_encode (bs : List Nat) (h : ∀ b ∈ bs, b < 256) :
    b64decodeChars (b64encodeBytes bs) = bs := by
  induction bs using b64encodeBytes.induct with
  | case1 => rfl
  | case2 a =>
    have ha : a < 256 := h a (by simp)
    have h1 := b64chars_get (a / 4) (by omega)
    have h2 := b64chars_get (a % 4 * 16) (by omega)
    simp only [b64encodeBytes, b64decodeChars, h1, h2, if_true]
    have g1 : a / 4 * 4 + a % 4 * 16 / 16 = a := by omega
    rw [g1]
  | case3 a b =>
    have ha : a < 256 := h a (by simp)
    have hb : b < 256 := h b (by simp)
    have h1 := b64chars_get (a / 4) (by omega)
    have h2 := b64chars_get (a % 4 * 16 + b / 16) (by omega)
    have h3 := b64chars_get (b % 16 * 4) (by omega)
    have hne := b64char_ne_pad (b % 16 * 4) (by omega)
    simp only [b64encodeBytes, b64decodeChars, h1, h2, h3, hne, if_true,
      if_false]
    have g1 : a / 4 * 4 + (a % 4 * 16 + b / 16) / 16 = a := by omega
    have g2 : (a % 4 * 16 + b / 16) % 16 * 16 + b % 16 * 4 / 4 = b := by omega
    rw [g1, g2]
  | case4 a b c rest ih =>
    have ha : a < 256 := h a (by simp)
    have hb : b < 256 := h b (by simp)
    have hc : c < 256 := h c (by simp)
    have hrest : ∀ x ∈ rest, x < 256 := fun x hx => h x (by simp [hx])
    have h1 := b64chars_get (a / 4) (by omega)
    have h2 := b64chars_get (a % 4 * 16 + b / 16) (by omega)
    have h3 := b64chars_get (b % 16 * 4 + c / 64) (by omega)
    have h4 := b64chars_get (c % 64) (by omega)
    have hne3 := b64char_ne_pad (b % 16 * 4 + c / 64) (by omega)
    have hne4 := b64char_ne_pad (c % 64) (by omega)
    simp only [b64encodeBytes, b64decodeChars, h1, h2, h3, h4, hne3, hne4,
      if_false, ih hrest]
    have g1 : a / 4 * 4 + (a % 4 * 16 + b / 16) / 16 = a := by omega
    have g2 : (a % 4 * 16 + b / 16) % 16 * 16 + (b % 16 * 4 + c / 64) / 4 = b := by
      omega
    have g3 : (b % 16 * 4 + c / 64) % 4 * 64 + c % 64 = c := by omega
    rw [g1, g2, g3]

def SERVICE_ACCOUNT_FILE : String :=
  "tu-oportunidad-es-hoy-firebase-adminsdk-fbsvc-781e9f9dc1.json"

/-- State of the credential file as seen by `encode_key.py`: absent,
present but failing to open or read with exception text `e`, or readable
with byte content `bs`. -/
inductive KeyFile where
  | absent
  | readErr (e : String)
  | bytes (bs : List Nat)

def MARK_START : String := "--- COMIENZO DE CLAVE BASE64 ---"

def MARK_END : String := "--- FIN DE CLAVE BASE64 ---"

/-- The lines `encode_key.py` prints, one list entry per `print` call. -/
def encodeKeyRun (f : KeyFile) : List String :=
  match f with
  | .absent =>
    ["Error: Archivo \u0027" ++ SERVICE_ACCOUNT_FILE ++
      "\u0027 no encontrado en el directorio actual."]
  | .readErr e => ["Error al codificar el archivo: " ++ e]
  | .bytes bs =>
    [MARK_START, String.mk (b64encodeBytes bs), MARK_END,
      "\nCopia el texto entre \u0027--- COMIENZO ---\u0027 y \u0027--- FIN ---\u0027 y pégalo en Render."]

/-! ### migrate_to_firestore.py — data model -/

def CONFIGURACION_FILE : String := "configuracion.json"

def NUMEROS_FILE : String := "numeros.json"

def HORARIOS_ZULIA_FILE : String := "horarios_zulia.json"

def GANADORES_FILE : String := "ganadores.json"

def PREMIOS_FILE : String := "premios.json"

def VENTAS_FILE : String := "ventas.json"

def RESULTADOS_ZULIA_FILE : String := "resultados_zulia.json"

def COMPROBANTES_FILE : String := "comprobantes.json"

/-- What the file system holds at a path: no file, a file whose bytes do
not parse as JSON (`json.JSONDecodeError` with text `e` — a zero-byte
file is of this kind), or a file parsing to the value `v`. -/
inductive FileState where
  | absent
  | invalid (e : String)
  | content (v : JValue)

/-- `load_json` (lines 47-60): warning and `None` for a missing file,
error message and `None` for unparseable content, otherwise the parsed
value.  Returns the printed lines and the Python return value. -/
def loadJson (filepath : String) (st : FileState) :
    List String × Option JValue :=
  match st with
  | .absent =>
    (["Advertencia: Archivo \u0027" ++ filepath ++
      "\u0027 no encontrado. Se omitirá la migración para este archivo."], none)
  | .invalid e =>
    (["Error al decodificar JSON en \u0027" ++ filepath ++ "\u0027: " ++ e],
      none)
  | .content v => ([], some v)

/-- `data = load_json(...)` followed by `if data:`: `None` and falsy
values skip the section. -/
def goData : Option JValue → Option JValue
  | some v => if truthy v then some v else none
  | none => none

mutual

/-- Python `str()` of a parsed JSON value, as interpolated into the
migrator's f-string error messages. -/
def JValue.render : JValue → String
  | .null => "None"
  | .bool true => "True"
  | .bool false => "False"
  | .num n => toString n
  | .str s => "\u0027" ++ s ++ "\u0027"
  | .arr xs => "[" ++ renderElems xs ++ "]"
  | .obj fs => "\x7b" ++ renderFields fs ++ "\x7d"

def renderElems : List JValue → String
  | [] => ""
  | [x] => JValue.render x
  | x :: rest => JValue.render x ++ ", " ++ renderElems rest

def renderFields : List (String × JValue) → String
  | [] => ""
  | [(k, v)] => "\u0027" ++ k ++ "\u0027: " ++ JValue.render v
  | (k, v) :: rest =>
    "\u0027" ++ k ++ "\u0027: " ++ JValue.render v ++ ", " ++
      renderFields rest

end

/-- Python `len()`: defined for sequences and mappings, raises
`TypeError` on numbers, booleans and `None`. -/
def pyLen : JValue → Option Nat
  | .arr xs => some xs.length
  | .obj fs => some fs.length
  | .str s => some s.length
  | _ => none

/-- Iterating a Python value in a `for` loop: a list yields its elements,
a dict its keys, a string its characters; other values raise `TypeError`
(`none`). -/
def pyIter : JValue → Option (List JValue)
  | .arr xs => some xs
  | .obj fs => some (fs.map (fun p => JValue.str p.1))
  | .str s => some (s.toList.map (fun c => JValue.str c.toString))
  | _ => none

/-- A Python value usable with `len` and slice syntax `data[i:i+500]`
(lines 90-92, 144-146): lists and strings; a dict raises `TypeError` at
the first slice, numbers and booleans already at `len()` — in every
non-sequence case the batching loop raises before emitting anything. -/
def pySeq : JValue → Option (List JValue)
  | .arr xs => some xs
  | .str s => some (s.toList.map (fun c => JValue.str c.toString))
  | _ => none

/-- One write staged into a Firestore batch: target collection, explicit
document id (`none` when Firestore assigns the id) and payload. -/
structure BatchWrite where
  coll : String
  docId : Option String
  data : JValue

/-- One operation attempted against the Firestore service: a single
document set, a single add with destination-assigned id, or a batch
commit. -/
inductive DbOp where
  | set (coll doc : String) (data : JValue)
  | add (coll : String) (data : JValue)
  | commit (writes : List BatchWrite)

/-- One observable step of the migrator: a printed console line, or a
database operation attempted together with its outcome. -/
inductive Event where
  | msg (s : String)
  | db (op : DbOp) (ok : Bool)

/-- Write outcomes: `err op = none` means `op` succeeds, `some e` means
it raises an exception rendered as `e`.  Every exception raised inside a
`try` block — service-side rejection or client-side SDK error — is folded
into this oracle. -/
abbrev ErrOracle := DbOp → Option String

/-- Chain section results, stopping at the first uncaught exception
(crash flag `true`): an uncaught exception aborts all of `migrate_data`. -/
def seqRun : List (List Event × Bool) → List Event × Bool
  | [] => ([], false)
  | (ev, true) :: _ => (ev, true)
  | (ev, false) :: rest =>
    let r := seqRun rest
    (ev ++ r.1, r.2)

/-! ### migrate_to_firestore.py — the eight sections -/

/-- Placeholder text of the `TypeError` Python raises when `len()` is
applied to an unsized value (the exact CPython wording is irrelevant to
every property proved here). -/
def lenErrorText : String := "object has no len()"

/-- Section 1 (lines 76-84): migrate the configuration fixture to the
single document `configuracion/general`; the whole parsed object is the
payload and the write is inside `try`. -/
def migrateConfiguracion (st : FileState) (err : ErrOracle) :
    List Event × Bool :=
  let l := loadJson CONFIGURACION_FILE st
  let evs := l.1.map Event.msg
  match goData l.2 with
  | none => (evs, false)
  | some v =>
    let op := DbOp.set ("configuracion") ("general") v
    match err op with
    | none =>
      (evs ++ [.db op true,
        .msg ("Configuración migrada exitosamente a \u0027configuracion/general\u0027.")],
        false)
    | some e =>
      (evs ++ [.db op false,
        .msg ("Error al migrar configuración: " ++ e)], false)

/-- `numero_item['numero']` then `document(...)` (line 94): the staged
document id when the item is a dict holding a string under `"numero"` —
the only case in which line 94 does not raise (a missing key raises
`KeyError`, a non-string id raises inside `document()`).  Line 94 sits
outside every `try` block, so `none` here crashes the whole run. -/
def numeroKey : JValue → Option String
  | .obj fs =>
    match fs.lookup ("numero") with
    | some (JValue.str s) => some s
    | _ => none
  | _ => none

/-- Stage the writes of one numeros segment (lines 93-95); `none` when
some item makes line 94 raise outside the `try` block. -/
def stageNumeros : List JValue → Option (List BatchWrite)
  | [] => some []
  | item :: rest =>
    match numeroKey item with
    | none => none
    | some k =>
      match stageNumeros rest with
      | none => none
      | some ws => some (⟨"numeros", some k, item⟩ :: ws)

/-- One iteration of the numeros batching loop (lines 90-100): build the
segment, stage its writes, commit the batch inside `try`. -/
def numerosBatch (err : ErrOracle) (xs : List JValue) (i : Nat) :
    List Event × Bool :=
  match stageNumeros ((xs.drop i).take 500) with
  | none => ([], true)
  | some ws =>
    let op := DbOp.commit ws
    match err op with
    | none =>
      ([.db op true, .msg ("Batch de números comprometido, total: " ++
        toString (min (i + 500) xs.length))], false)
    | some e =>
      ([.db op false,
        .msg ("Error al comprometer batch de números: " ++ e)], false)

/-- Section 2 (lines 86-105): migrate the numeros fixture in batches of
500 keyed by each item's `"numero"` field. -/
def migrateNumeros (st : FileState) (err : ErrOracle) :
    List Event × Bool :=
  let l := loadJson NUMEROS_FILE st
  let evs := l.1.map Event.msg
  match goData l.2 with
  | none => (evs, false)
  | some v =>
    match pySeq v with
    | none => (evs, true)
    | some xs =>
      let r := seqRun ((pyRange xs.length 500).map (numerosBatch err xs))
      (evs ++ r.1 ++ (if r.2 then [] else
        [.msg ("Migrados " ++ toString xs.length ++
          " números a la colección \u0027numeros\u0027.")]), r.2)

/-- Section 3 (lines 107-118): the whole horarios array is wrapped under
one field `'horarios'` of the single document
`horarios_zulia/horarios_principales`; everything is inside `try` (a
`len()` failure in the success print is caught by the same `except`). -/
def migrateHorarios (st : FileState) (err : ErrOracle) :
    List Event × Bool :=
  let l := loadJson HORARIOS_ZULIA_FILE st
  let evs := l.1.map Event.msg
  match goData l.2 with
  | none => (evs, false)
  | some v =>
    let op := DbOp.set ("horarios_zulia") ("horarios_principales")
      (JValue.obj [("horarios", v)])
    match err op with
    | none =>
      match pyLen v with
      | some n =>
        (evs ++ [.db op true, .msg ("Migrados " ++ toString n ++
          " horarios de Zulia a \u0027horarios_zulia/horarios_principales\u0027.")],
          false)
      | none =>
        (evs ++ [.db op true,
          .msg ("Error al migrar horarios de Zulia: " ++ lenErrorText)],
          false)
    | some e =>
      (evs ++ [.db op false,
        .msg ("Error al migrar horarios de Zulia: " ++ e)], false)

/-- One record of an unbatched fan-out section: `collection.add(record)`
inside `try`; on failure the record content is interpolated into the
error line (lines 123-127, 163-167, 173-178). -/
def addRecord (err : ErrOracle) (coll errPrefix : String) (item : JValue) :
    List Event :=
  let op := DbOp.add coll item
  match err op with
  | none => [.db op true]
  | some e =>
    [.db op false, .msg (errPrefix ++ JValue.render item ++ " - " ++ e)]

/-- Section 4 (lines 120-128): one `add` per ganadores record with
destination-assigned id. -/
def migrateGanadores (st : FileState) (err : ErrOracle) :
    List Event × Bool :=
  let l := loadJson GANADORES_FILE st
  let evs := l.1.map Event.msg
  match goData l.2 with
  | none => (evs, false)
  | some v =>
    match pyIter v with
    | none => (evs, true)
    | some items =>
      (evs ++
        (items.map (addRecord err ("ganadores") ("Error al migrar ganador: "))).flatten ++
        [.msg ("Migrados " ++ toString items.length ++
          " ganadores a la colección \u0027ganadores\u0027.")], false)

/-- Section 5 (lines 130-138): migrate the premios fixture to the single
document `premios/general`. -/
def migratePremios (st : FileState) (err : ErrOracle) :
    List Event × Bool :=
  let l := loadJson PREMIOS_FILE st
  let evs := l.1.map Event.msg
  match goData l.2 with
  | none => (evs, false)
  | some v =>
    let op := DbOp.set ("premios") ("general") v
    match err op with
    | none =>
      (evs ++ [.db op true,
        .msg ("Premios migrados exitosamente a \u0027premios/general\u0027.")], false)
    | some e =>
      (evs ++ [.db op false, .msg ("Error al migrar premios: " ++ e)],
        false)

/-- One iteration of the ventas batching loop (lines 144-157): every
record of the segment is staged with a destination-assigned id (line
152) and the batch is committed inside `try`. -/
def ventasBatch (err : ErrOracle) (xs : List JValue) (i : Nat) :
    List Event :=
  let ws := ((xs.drop i).take 500).map (fun v => ⟨"ventas", none, v⟩)
  let op := DbOp.commit ws
  match err op with
  | none =>
    [.db op true, .msg ("Batch de ventas comprometido, total: " ++
      toString (min (i + 500) xs.length))]
  | some e =>
    [.db op false, .msg ("Error al comprometer batch de ventas: " ++ e)]

/-- Section 6 (lines 140-158): migrate the ventas fixture in batches of
500 with destination-assigned ids. -/
def migrateVentas (st : FileState) (err : ErrOracle) :
    List Event × Bool :=
  let l := loadJson VENTAS_FILE st
  let evs := l.1.map Event.msg
  match goData l.2 with
  | none => (evs, false)
  | some v =>
    match pySeq v with
    | none => (evs, true)
    | some xs =>
      (evs ++ ((pyRange xs.length 500).map (ventasBatch err xs)).flatten ++
        [.msg ("Migradas " ++ toString xs.length ++
          " ventas a la colección \u0027ventas\u0027.")], false)

/-- Section 7 (lines 160-168): one `add` per resultados record. -/
def migrateResultados (st : FileState) (err : ErrOracle) :
    List Event × Bool :=
  let l := loadJson RESULTADOS_ZULIA_FILE st
  let evs := l.1.map Event.msg
  match goData l.2 with
  | none => (evs, false)
  | some v =>
    match pyIter v with
    | none => (evs, true)
    | some items =>
      (evs ++
        (items.map (addRecord err ("resultados_zulia")
          ("Error al migrar resultado de Zulia: "))).flatten ++
        [.msg ("Migrados " ++ toString items.length ++
          " resultados de Zulia a la colección \u0027resultados_zulia\u0027.")], false)

/-- Section 8 (lines 170-179): one `add` per comprobantes record. -/
def migrateComprobantes (st : FileState) (err : ErrOracle) :
    List Event × Bool :=
  let l := loadJson COMPROBANTES_FILE st
  let evs := l.1.map Event.msg
  match goData l.2 with
  | none => (evs, false)
  | some v =>
    match pyIter v with
    | none => (evs, true)
    | some items =>
      (evs ++
        (items.map (addRecord err ("comprobantes")
          ("Error al migrar comprobante: "))).flatten ++
        [.msg ("Migrados " ++ toString items.length ++
          " comprobantes a la colección \u0027comprobantes\u0027.")], false)

/-- The three closing prints of `migrate_data` (lines 182-184). -/
def finalMsgs : List Event :=
  [.msg ("Migración de datos a Firestore completada. Por favor, verifica en la consola de Firebase."),
    .msg ("Recuerda: Una vez que los datos estén en Firestore, tu backend en Render utilizará Firestore y no tus archivos JSON locales."),
    .msg ("Asegúrate de configurar la variable de entorno FIREBASE_SERVICE_ACCOUNT_KEY en Render para que tu backend pueda conectarse a Firestore.")]

/-- `migrate_data` (lines 73-184): the eight sections in order, each fed
its own fixture file; an uncaught exception (crash flag) aborts the rest
and suppresses the closing prints. -/
def migrateData (files : String → FileState) (err : ErrOracle) :
    List Event × Bool :=
  let r := seqRun
    [migrateConfiguracion (files CONFIGURACION_FILE) err,
      migrateNumeros (files NUMEROS_FILE) err,
      migrateHorarios (files HORARIOS_ZULIA_FILE) err,
      migrateGanadores (files GANADORES_FILE) err,
      migratePremios (files PREMIOS_FILE) err,
      migrateVentas (files VENTAS_FILE) err,
      migrateResultados (files RESULTADOS_ZULIA_FILE) err,
      migrateComprobantes (files COMPROBANTES_FILE) err]
  (Event.msg ("Iniciando migración de datos a Firestore...") ::
    (r.1 ++ (if r.2 then [] else finalMsgs)), r.2)

/-! ### migrate_to_firestore.py — credential initialization -/

/-- Where the credential is taken from (lines 17-23): the environment
variable when it is set to a truthy (non-empty) string, else the local
credential file. -/
inductive CredSource where
  | fromEnv (blob : String)
  | fromFile (path : String)

def CRED_FILE : String :=
  "tu-oportunidad-es-hoy-firebase-adminsdk-fbsvc-781e9f9dc1.json"

/-- Lines 17-23: `os.environ.get` then `if cred_json:`. -/
def resolveCred (env : Option String) : CredSource :=
  match env with
  | some s => if s != "" then .fromEnv s else .fromFile CRED_FILE
  | none => .fromFile CRED_FILE

/-- The whole script (lines 15-32 followed by `migrate_data`): `credErr`
is the outcome of building credentials from the resolved source and
initializing the SDK client (lines 19-26); on failure the script prints
three diagnostic lines and calls `exit()` before anything else runs. -/
def runScript (env : Option String) (credErr : CredSource → Option String)
    (files : String → FileState) (err : ErrOracle) : List Event × Bool :=
  match credErr (resolveCred env) with
  | some e =>
    ([.msg ("Error al inicializar Firebase Admin SDK: " ++ e),
      .msg ("Asegúrate de que el archivo de credenciales de Firebase esté en el directorio correcto"),
      .msg ("o que la variable de entorno \u0027FIREBASE_SERVICE_ACCOUNT_KEY\u0027 esté configurada.")],
      false)
  | none =>
    let r := migrateData files err
    (Event.msg ("Firebase Admin SDK inicializado exitosamente.") :: r.1, r.2)

/-! ### Trace observations -/

/-- The database operations attempted in a trace. -/
def dbOps (evs : List Event) : List DbOp :=
  evs.filterMap (fun ev =>
    match ev with
    | .db op _ => some op
    | _ => none)

/-- The printed lines of a trace. -/
def msgs (evs : List Event) : List String :=
  evs.filterMap (fun ev =>
    match ev with
    | .msg s => some s
    | _ => none)

/-- The payloads one operation submits to the database. -/
def opPayloads : DbOp → List JValue
  | .set _ _ d => [d]
  | .add _ d => [d]
  | .commit ws => ws.map (fun w => w.data)

/-- Every payload a trace submits to the database, in order. -/
def tracePayloads (evs : List Event) : List JValue :=
  ((dbOps evs).map opPayloads).flatten

/-- Whether an operation writes into collection `c`. -/
def touchesColl (c : String) : DbOp → Bool
  | .set coll _ _ => coll == c
  | .add coll _ => coll == c
  | .commit ws => ws.any (fun w => w.coll == c)

/-- Successful operations of a trace, in order of execution. -/
def succOps (evs : List Event) : List DbOp :=
  evs.filterMap (fun ev =>
    match ev with
    | .db op true => some op
    | _ => none)

/-! ### Basic trace lemmas -/

theorem dbOps_append (a b : List Event) :
    dbOps (a ++ b) = dbOps a ++ dbOps b :=
  List.filterMap_append a b _

theorem dbOps_map_msg (l : List String) :
    dbOps (l.map Event.msg) = [] := by
  induction l with
  | nil => rfl
  | cons x xs ih => simp [dbOps, List.filterMap_cons]

theorem msgs_append (a b : List Event) :
    msgs (a ++ b) = msgs a ++ msgs b :=
  List.filterMap_append a b _

theorem succOps_append (a b : List Event) :
    succOps (a ++ b) = succOps a ++ succOps b :=
  List.filterMap_append a b _

theorem succOps_map_msg (l : List String) :
    succOps (l.map Event.msg) = [] := by
  induction l with
  | nil => rfl
  | cons x xs ih => simp [succOps, List.filterMap_cons]

theorem tracePayloads_append (a b : List Event) :
    tracePayloads (a ++ b) = tracePayloads a ++ tracePayloads b := by
  simp [tracePayloads, dbOps_append]

theorem dbOps_flatten (l : List (List Event)) :
    dbOps l.flatten = (l.map dbOps).flatten := by
  induction l with
  | nil => rfl
  | cons x xs ih => simp [dbOps_append, ih]

theorem msgs_flatten (l : List (List Event)) :
    msgs l.flatten = (l.map msgs).flatten := by
  induction l with
  | nil => rfl
  | cons x xs ih => simp [msgs_append, ih]

theorem succOps_flatten (l : List (List Event)) :
    succOps l.flatten = (l.map succOps).flatten := by
  induction l with
  | nil => rfl
  | cons x xs ih => simp [succOps_append, ih]

theorem seqRun_cons_false (p : List Event × Bool) (rest) (hp : p.2 = false) :
    seqRun (p :: rest) = (p.1 ++ (seqRun rest).1, (seqRun rest).2) := by
  obtain ⟨ev, b⟩ := p
  cases b
  · rfl
  · cases hp

/-- When no section crashes, `seqRun` is plain concatenation. -/
theorem seqRun_noCrash (l : List (List Event × Bool))
    (h : ∀ p ∈ l, p.2 = false) :
    seqRun l = ((l.map Prod.fst).flatten, false) := by
  induction l with
  | nil => rfl
  | cons p rest ih =>
    rw [seqRun_cons_false p rest (h p (by simp)),
      ih (fun q hq => h q (by simp [hq]))]
    simp

/-! ### Numeros section structure -/

/-- Every numeros item is a dict carrying a string under `"numero"`, so
no iteration of lines 93-95 raises. -/
def allKeyed (xs : List JValue) : Prop :=
  ∀ it ∈ xs, (numeroKey it).isSome = true

/-- The writes lines 93-95 stage for a segment when no item raises. -/
def stagedWrites (seg : List JValue) : List BatchWrite :=
  seg.map (fun it => ⟨"numeros", numeroKey it, it⟩)

/-- The commit the numeros loop submits for the segment at index `i`. -/
def numerosCommit (xs : List JValue) (i : Nat) : DbOp :=
  DbOp.commit (stagedWrites ((xs.drop i).take 500))

theorem stageNumeros_eq (seg : List JValue)
    (h : ∀ it ∈ seg, (numeroKey it).isSome = true) :
    stageNumeros seg = some (stagedWrites seg) := by
  induction seg with
  | nil => rfl
  | cons it rest ih =>
    obtain ⟨k, hk⟩ := Option.isSome_iff_exists.mp (h it (by simp))
    simp only [stageNumeros, hk]
    rw [ih (fun x hx => h x (by simp [hx]))]
    simp [stagedWrites, hk]

theorem numerosBatch_eq (err : ErrOracle) (xs : List JValue) (i : Nat)
    (h : allKeyed xs) :
    numerosBatch err xs i =
      (match err (numerosCommit xs i) with
        | none => ([.db (numerosCommit xs i) true,
            .msg ("Batch de números comprometido, total: " ++
              toString (min (i + 500) xs.length))], false)
        | some e => ([.db (numerosCommit xs i) false,
            .msg ("Error al comprometer batch de números: " ++ e)], false)) := by
  have hseg : ∀ it ∈ (xs.drop i).take 500, (numeroKey it).isSome = true :=
    fun it hit => h it (List.drop_subset i xs (List.take_subset _ _ hit))
  unfold numerosBatch numerosCommit
  rw [stageNumeros_eq _ hseg]

theorem flatten_map_singleton (l : List α) (g : α → β) :
    (l.map (fun a => [g a])).flatten = l.map g := by
  induction l with
  | nil => rfl
  | cons x xs ih => simp [ih]

theorem tracePayloads_flatten (l : List (List Event)) :
    tracePayloads l.flatten = (l.map tracePayloads).flatten := by
  induction l with
  | nil => rfl
  | cons x xs ih => simp [tracePayloads_append, ih]

theorem numerosBatch_parts (err : ErrOracle) (xs : List JValue) (i : Nat)
    (h : allKeyed xs) :
    dbOps (numerosBatch err xs i).1 = [numerosCommit xs i]
    ∧ (numerosBatch err xs i).2 = false
    ∧ tracePayloads (numerosBatch err xs i).1 = (xs.drop i).take 500 := by
  rw [numerosBatch_eq err xs i h]
  cases he : err (numerosCommit xs i) <;>
    simp [he, dbOps, tracePayloads, opPayloads, numerosCommit, stagedWrites,
      List.filterMap_cons, List.map_map, Function.comp_def, List.map_id']

theorem migrateNumeros_struct (xs : List JValue) (err : ErrOracle)
    (h : allKeyed xs) (hne : xs ≠ []) :
    migrateNumeros (.content (.arr xs)) err =
      (((pyRange xs.length 500).map
          (fun i => (numerosBatch err xs i).1)).flatten ++
        [.msg ("Migrados " ++ toString xs.length ++
          " números a la colección \u0027numeros\u0027.")], false) := by
  have hb : ∀ p ∈ (pyRange xs.length 500).map (numerosBatch err xs),
      p.2 = false := by
    intro p hp
    rcases List.mem_map.mp hp with ⟨i, _, rfl⟩
    exact (numerosBatch_parts err xs i h).2.1
  have ht : truthy (JValue.arr xs) = true := by
    simp [truthy, hne]
  simp only [migrateNumeros, loadJson, goData, ht, if_true, pySeq,
    List.map_map]
  rw [seqRun_noCrash _ hb]
  simp [List.map_map, Function.comp_def]

theorem migrateNumeros_dbOps (xs : List JValue) (err : ErrOracle)
    (h : allKeyed xs) :
    dbOps (migrateNumeros (.content (.arr xs)) err).1 =
      (segmentsOf 500 xs).map (fun seg => DbOp.commit (stagedWrites seg)) := by
  rcases eq_or_ne xs [] with rfl | hne
  · rw [segmentsOf_nil]
    rfl
  · rw [migrateNumeros_struct xs err h hne]
    simp only [dbOps_append, dbOps_flatten, List.map_map]
    have hmap : (pyRange xs.length 500).map
        (dbOps ∘ fun i => (numerosBatch err xs i).1) =
        (pyRange xs.length 500).map (fun i => [numerosCommit xs i]) :=
      List.map_congr_left (fun i _ => (numerosBatch_parts err xs i h).1)
    rw [hmap, flatten_map_singleton]
    simp [segmentsOf, List.map_map, dbOps, numerosCommit, Function.comp_def]

theorem migrateNumeros_payloadsArr (xs : List JValue) (err : ErrOracle)
    (h : allKeyed xs) :
    tracePayloads (migrateNumeros (.content (.arr xs)) err).1 = xs := by
  rcases eq_or_ne xs [] with rfl | hne
  · rfl
  · rw [migrateNumeros_struct xs err h hne]
    rw [tracePayloads_append, tracePayloads_flatten]
    have hmap : ((pyRange xs.length 500).map
        (fun i => (numerosBatch err xs i).1)).map tracePayloads =
        (pyRange xs.length 500).map (fun i => (xs.drop i).take 500) := by
      rw [List.map_map]
      exact List.map_congr_left (fun i _ => (numerosBatch_parts err xs i h).2.2)
    rw [hmap]
    have hseg : (pyRange xs.length 500).map (fun i => (xs.drop i).take 500) =
        segmentsOf 500 xs := rfl
    rw [hseg, segmentsOf_flatten 500 (by omega) xs]
    simp [tracePayloads, dbOps]

theorem migrateNumeros_errMsgMem (xs : List JValue) (err : ErrOracle)
    (i : Nat) (e : String) (h : allKeyed xs)
    (hi : i ∈ pyRange xs.length 500)
    (he : err (numerosCommit xs i) = some e) :
    ("Error al comprometer batch de números: " ++ e) ∈
      msgs (migrateNumeros (.content (.arr xs)) err).1 := by
  have hne : xs ≠ [] := by
    rintro rfl
    simp [pyRange] at hi
  rw [migrateNumeros_struct xs err h hne]
  rw [msgs_append]
  apply List.mem_append_left
  rw [msgs_flatten]
  apply List.mem_flatten.mpr
  refine ⟨msgs (numerosBatch err xs i).1, ?_, ?_⟩
  · rw [List.map_map]
    exact List.mem_map.mpr ⟨i, hi, rfl⟩
  · rw [numerosBatch_eq err xs i h, he]
    simp [msgs]

/-! ### Ventas section structure -/

/-- The writes line 152 stages for a segment: destination-assigned ids,
payload verbatim. -/
def autoWrites (seg : List JValue) : List BatchWrite :=
  seg.map (fun v => ⟨"ventas", none, v⟩)

/-- The commit the ventas loop submits for the segment at index `i`. -/
def ventasCommit (xs : List JValue) (i : Nat) : DbOp :=
  DbOp.commit (autoWrites ((xs.drop i).take 500))

theorem ventasBatch_eq (err : ErrOracle) (xs : List JValue) (i : Nat) :
    ventasBatch err xs i =
      (match err (ventasCommit xs i) with
        | none => [.db (ventasCommit xs i) true,
            .msg ("Batch de ventas comprometido, total: " ++
              toString (min (i + 500) xs.length))]
        | some e => [.db (ventasCommit xs i) false,
            .msg ("Error al comprometer batch de ventas: " ++ e)]) := rfl

theorem ventasBatch_parts (err : ErrOracle) (xs : List JValue) (i : Nat) :
    dbOps (ventasBatch err xs i) = [ventasCommit xs i]
    ∧ tracePayloads (ventasBatch err xs i) = (xs.drop i).take 500 := by
  rw [ventasBatch_eq err xs i]
  cases he : err (ventasCommit xs i) <;>
    simp [he, dbOps, tracePayloads, opPayloads, ventasCommit, autoWrites,
      List.filterMap_cons, List.map_map, Function.comp_def, List.map_id']

theorem migrateVentas_struct (xs : List JValue) (err : ErrOracle)
    (hne : xs ≠ []) :
    migrateVentas (.content (.arr xs)) err =
      (((pyRange xs.length 500).map (ventasBatch err xs)).flatten ++
        [.msg ("Migradas " ++ toString xs.length ++
          " ventas a la colección \u0027ventas\u0027.")], false) := by
  have ht : truthy (JValue.arr xs) = true := by
    simp [truthy, hne]
  simp only [migrateVentas, loadJson, goData, ht, if_true, pySeq]
  simp

theorem migrateVentas_dbOps (xs : List JValue) (err : ErrOracle) :
    dbOps (migrateVentas (.content (.arr xs)) err).1 =
      (segmentsOf 500 xs).map (fun seg => DbOp.commit (autoWrites seg)) := by
  rcases eq_or_ne xs [] with rfl | hne
  · rw [segmentsOf_nil]
    rfl
  · rw [migrateVentas_struct xs err hne]
    simp only [dbOps_append, dbOps_flatten, List.map_map]
    have hmap : (pyRange xs.length 500).map (dbOps ∘ ventasBatch err xs) =
        (pyRange xs.length 500).map (fun i => [ventasCommit xs i]) :=
      List.map_congr_left (fun i _ => (ventasBatch_parts err xs i).1)
    rw [hmap, flatten_map_singleton]
    simp [segmentsOf, List.map_map, dbOps, ventasCommit, Function.comp_def]

theorem migrateVentas_payloadsArr (xs : List JValue) (err : ErrOracle) :
    tracePayloads (migrateVentas (.content (.arr xs)) err).1 = xs := by
  rcases eq_or_ne xs [] with rfl | hne
  · rfl
  · rw [migrateVentas_struct xs err hne]
    rw [tracePayloads_append, tracePayloads_flatten]
    have hmap : ((pyRange xs.length 500).map (ventasBatch err xs)).map
        tracePayloads =
        (pyRange xs.length 500).map (fun i => (xs.drop i).take 500) := by
      rw [List.map_map]
      exact List.map_congr_left (fun i _ => (ventasBatch_parts err xs i).2)
    rw [hmap]
    have hseg : (pyRange xs.length 500).map (fun i => (xs.drop i).take 500) =
        segmentsOf 500 xs := rfl
    rw [hseg, segmentsOf_flatten 500 (by omega) xs]
    simp [tracePayloads, dbOps]

theorem migrateVentas_errMsgMem (xs : List JValue) (err : ErrOracle)
    (i : Nat) (e : String)
    (hi : i ∈ pyRange xs.length 500)
    (he : err (ventasCommit xs i) = some e) :
    ("Error al comprometer batch de ventas: " ++ e) ∈
      msgs (migrateVentas (.content (.arr xs)) err).1 := by
  have hne : xs ≠ [] := by
    rintro rfl
    simp [pyRange] at hi
  rw [migrateVentas_struct xs err hne]
  rw [msgs_append]
  apply List.mem_append_left
  rw [msgs_flatten]
  apply List.mem_flatten.mpr
  refine ⟨msgs (ventasBatch err xs i), ?_, ?_⟩
  · rw [List.map_map]
    exact List.mem_map.mpr ⟨i, hi, rfl⟩
  · rw [ventasBatch_eq err xs i, he]
    simp [msgs]

/-! ### Unbatched fan-out structure -/

theorem addRecord_eq (err : ErrOracle) (c pre : String) (it : JValue) :
    addRecord err c pre it =
      (match err (DbOp.add c it) with
        | none => [.db (DbOp.add c it) true]
        | some e => [.db (DbOp.add c it) false,
            .msg (pre ++ JValue.render it ++ " - " ++ e)]) := rfl

theorem addRecord_dbOps (err : ErrOracle) (c pre : String) (it : JValue) :
    dbOps (addRecord err c pre it) = [DbOp.add c it] := by
  rw [addRecord_eq]
  cases he : err (DbOp.add c it) <;> simp [he, dbOps, List.filterMap_cons]

theorem addRecord_payloads (err : ErrOracle) (c pre : String) (it : JValue) :
    tracePayloads (addRecord err c pre it) = [it] := by
  simp [tracePayloads, addRecord_dbOps, opPayloads]

theorem fanout_dbOps (err : ErrOracle) (c pre : String)
    (items : List JValue) :
    dbOps ((items.map (addRecord err c pre)).flatten) =
      items.map (DbOp.add c) := by
  rw [dbOps_flatten, List.map_map]
  have hmap : items.map (dbOps ∘ addRecord err c pre) =
      items.map (fun it => [DbOp.add c it]) :=
    List.map_congr_left (fun it _ => addRecord_dbOps err c pre it)
  rw [hmap, flatten_map_singleton]

theorem fanout_payloads (err : ErrOracle) (c pre : String)
    (items : List JValue) :
    tracePayloads ((items.map (addRecord err c pre)).flatten) = items := by
  rw [tracePayloads_flatten, List.map_map]
  have hmap : items.map (tracePayloads ∘ addRecord err c pre) =
      items.map (fun it => [it]) :=
    List.map_congr_left (fun it _ => addRecord_payloads err c pre it)
  rw [hmap, flatten_map_singleton, List.map_id']

theorem fanout_errMsg (err : ErrOracle) (c pre : String)
    (items : List JValue) (it : JValue) (e : String)
    (hit : it ∈ items) (he : err (DbOp.add c it) = some e) :
    (pre ++ JValue.render it ++ " - " ++ e) ∈
      msgs ((items.map (addRecord err c pre)).flatten) := by
  rw [msgs_flatten]
  apply List.mem_flatten.mpr
  refine ⟨msgs (addRecord err c pre it), ?_, ?_⟩
  · rw [List.map_map]
    exact List.mem_map.mpr ⟨it, hit, rfl⟩
  · rw [addRecord_eq, he]
    simp [msgs]

theorem migrateGanadores_struct (items : List JValue) (err : ErrOracle)
    (hne : items ≠ []) :
    migrateGanadores (.content (.arr items)) err =
      ((items.map (addRecord err ("ganadores")
          ("Error al migrar ganador: "))).flatten ++
        [.msg ("Migrados " ++ toString items.length ++
          " ganadores a la colección \u0027ganadores\u0027.")], false) := by
  have ht : truthy (JValue.arr items) = true := by
    simp [truthy, hne]
  simp only [migrateGanadores, loadJson, goData, ht, if_true, pyIter]
  simp

theorem migrateResultados_struct (items : List JValue) (err : ErrOracle)
    (hne : items ≠ []) :
    migrateResultados (.content (.arr items)) err =
      ((items.map (addRecord err ("resultados_zulia")
          ("Error al migrar resultado de Zulia: "))).flatten ++
        [.msg ("Migrados " ++ toString items.length ++
          " resultados de Zulia a la colección \u0027resultados_zulia\u0027.")],
        false) := by
  have ht : truthy (JValue.arr items) = true := by
    simp [truthy, hne]
  simp only [migrateResultados, loadJson, goData, ht, if_true, pyIter]
  simp

theorem migrateComprobantes_struct (items : List JValue) (err : ErrOracle)
    (hne : items ≠ []) :
    migrateComprobantes (.content (.arr items)) err =
      ((items.map (addRecord err ("comprobantes")
          ("Error al migrar comprobante: "))).flatten ++
        [.msg ("Migrados " ++ toString items.length ++
          " comprobantes a la colección \u0027comprobantes\u0027.")], false) := by
  have ht : truthy (JValue.arr items) = true := by
    simp [truthy, hne]
  simp only [migrateComprobantes, loadJson, goData, ht, if_true, pyIter]
  simp

/-! ### Crash-freedom conditions per section -/

/-- The loaded numeros fixture cannot make lines 90-95 raise outside a
`try`: when truthy it is a list whose items all carry a string
`"numero"` key. -/
def numerosSafe : FileState → Bool
  | .content (.arr xs) => xs.all (fun it => (numeroKey it).isSome)
  | .content v => !truthy v
  | _ => true

/-- The loaded ventas fixture cannot make lines 143-146 raise: when
truthy it supports `len` and slicing. -/
def seqSafe : FileState → Bool
  | .content v => (pySeq v).isSome || !truthy v
  | _ => true

/-- The loaded fixture of an unbatched fan-out section cannot make its
`for` loop header raise: when truthy it is iterable. -/
def iterSafe : FileState → Bool
  | .content v => (pyIter v).isSome || !truthy v
  | _ => true

theorem truthy_of_not_true {v : JValue} (h : ¬truthy v = true) :
    truthy v = false := by
  revert h
  cases truthy v <;> simp

theorem migrateConfiguracion_snd (st : FileState) (err : ErrOracle) :
    (migrateConfiguracion st err).2 = false := by
  cases hg : goData (loadJson CONFIGURACION_FILE st).2 with
  | none => simp [migrateConfiguracion, hg]
  | some v =>
    cases he : err (DbOp.set ("configuracion") ("general") v) <;>
      simp [migrateConfiguracion, hg, he]

theorem migrateHorarios_snd (st : FileState) (err : ErrOracle) :
    (migrateHorarios st err).2 = false := by
  cases hg : goData (loadJson HORARIOS_ZULIA_FILE st).2 with
  | none => simp [migrateHorarios, hg]
  | some v =>
    cases he : err (DbOp.set ("horarios_zulia") ("horarios_principales")
        (JValue.obj [("horarios", v)])) with
    | none => cases hl : pyLen v <;> simp [migrateHorarios, hg, he, hl]
    | some e => simp [migrateHorarios, hg, he]

theorem migratePremios_snd (st : FileState) (err : ErrOracle) :
    (migratePremios st err).2 = false := by
  cases hg : goData (loadJson PREMIOS_FILE st).2 with
  | none => simp [migratePremios, hg]
  | some v =>
    cases he : err (DbOp.set ("premios") ("general") v) <;>
      simp [migratePremios, hg, he]

theorem migrateNumeros_snd (st : FileState) (err : ErrOracle)
    (h : numerosSafe st = true) :
    (migrateNumeros st err).2 = false := by
  cases st with
  | absent => rfl
  | invalid e => rfl
  | content v =>
    by_cases ht : truthy v = true
    · cases v with
      | arr xs =>
        have hk : allKeyed xs := by
          intro it hit
          exact List.all_eq_true.mp (by simpa [numerosSafe] using h) it hit
        rcases eq_or_ne xs [] with rfl | hne
        · rfl
        · rw [migrateNumeros_struct xs err hk hne]
      | null => simp [truthy] at ht
      | bool b =>
        simp [truthy] at ht
        simp [numerosSafe, truthy, ht] at h
      | num n => simp [numerosSafe, ht] at h
      | str s => simp [numerosSafe, ht] at h
      | obj fs => simp [numerosSafe, ht] at h
    · simp [migrateNumeros, loadJson, goData, truthy_of_not_true ht]

theorem migrateVentas_snd (st : FileState) (err : ErrOracle)
    (h : seqSafe st = true) :
    (migrateVentas st err).2 = false := by
  cases st with
  | absent => rfl
  | invalid e => rfl
  | content v =>
    by_cases ht : truthy v = true
    · cases hp : pySeq v with
      | some xs => simp [migrateVentas, loadJson, goData, ht, hp]
      | none => simp [seqSafe, hp, ht] at h
    · simp [migrateVentas, loadJson, goData, truthy_of_not_true ht]

theorem migrateGanadores_snd (st : FileState) (err : ErrOracle)
    (h : iterSafe st = true) :
    (migrateGanadores st err).2 = false := by
  cases st with
  | absent => rfl
  | invalid e => rfl
  | content v =>
    by_cases ht : truthy v = true
    · cases hp : pyIter v with
      | some items => simp [migrateGanadores, loadJson, goData, ht, hp]
      | none => simp [iterSafe, hp, ht] at h
    · simp [migrateGanadores, loadJson, goData, truthy_of_not_true ht]

theorem migrateResultados_snd (st : FileState) (err : ErrOracle)
    (h : iterSafe st = true) :
    (migrateResultados st err).2 = false := by
  cases st with
  | absent => rfl
  | invalid e => rfl
  | content v =>
    by_cases ht : truthy v = true
    · cases hp : pyIter v with
      | some items => simp [migrateResultados, loadJson, goData, ht, hp]
      | none => simp [iterSafe, hp, ht] at h
    · simp [migrateResultados, loadJson, goData, truthy_of_not_true ht]

theorem migrateComprobantes_snd (st : FileState) (err : ErrOracle)
    (h : iterSafe st = true) :
    (migrateComprobantes st err).2 = false := by
  cases st with
  | absent => rfl
  | invalid e => rfl
  | content v =>
    by_cases ht : truthy v = true
    · cases hp : pyIter v with
      | some items => simp [migrateComprobantes, loadJson, goData, ht, hp]
      | none => simp [iterSafe, hp, ht] at h
    · simp [migrateComprobantes, loadJson, goData, truthy_of_not_true ht]

/-! ### Payload accounting -/

theorem tracePayloads_cons_msg (s : String) (evs : List Event) :
    tracePayloads (Event.msg s :: evs) = tracePayloads evs := rfl

/-- The single payload a whole-object section submits, when its fixture
loads and is truthy. -/
def wholeDocPayload (f : String) (st : FileState) : List JValue :=
  match goData (loadJson f st).2 with
  | some v => [v]
  | none => []

/-- The single payload the horarios section submits: the loaded value
wrapped verbatim under the field `'horarios'`. -/
def wrapPayload (f : String) (st : FileState) : List JValue :=
  match goData (loadJson f st).2 with
  | some v => [JValue.obj [("horarios", v)]]
  | none => []

/-- The payloads a batched section submits: the loaded sequence's
elements, verbatim. -/
def seqPayload (f : String) (st : FileState) : List JValue :=
  match goData (loadJson f st).2 with
  | some v => (pySeq v).getD []
  | none => []

/-- The payloads an unbatched fan-out section submits: the loaded
value's iteration elements, verbatim. -/
def iterPayload (f : String) (st : FileState) : List JValue :=
  match goData (loadJson f st).2 with
  | some v => (pyIter v).getD []
  | none => []

/-- Everything the migrator is allowed to submit: each parsed source
element unchanged, the whole parsed object for the single-document
fixtures, and the horarios array wrapped under one field. -/
def allowedPayloads (files : String → FileState) : List JValue :=
  wholeDocPayload CONFIGURACION_FILE (files CONFIGURACION_FILE) ++
  seqPayload NUMEROS_FILE (files NUMEROS_FILE) ++
  wrapPayload HORARIOS_ZULIA_FILE (files HORARIOS_ZULIA_FILE) ++
  iterPayload GANADORES_FILE (files GANADORES_FILE) ++
  wholeDocPayload PREMIOS_FILE (files PREMIOS_FILE) ++
  seqPayload VENTAS_FILE (files VENTAS_FILE) ++
  iterPayload RESULTADOS_ZULIA_FILE (files RESULTADOS_ZULIA_FILE) ++
  iterPayload COMPROBANTES_FILE (files COMPROBANTES_FILE)

theorem migrateConfiguracion_payloads (st : FileState) (err : ErrOracle) :
    tracePayloads (migrateConfiguracion st err).1 =
      wholeDocPayload CONFIGURACION_FILE st := by
  cases hg : goData (loadJson CONFIGURACION_FILE st).2 with
  | none =>
    simp [migrateConfiguracion, wholeDocPayload, hg, tracePayloads,
      dbOps_map_msg]
  | some v =>
    cases he : err (DbOp.set ("configuracion") ("general") v) <;>
      simp [migrateConfiguracion, wholeDocPayload, hg, he,
        tracePayloads_append, tracePayloads, dbOps, dbOps_map_msg,
        opPayloads, List.filterMap_cons]

theorem migratePremios_payloads (st : FileState) (err : ErrOracle) :
    tracePayloads (migratePremios st err).1 =
      wholeDocPayload PREMIOS_FILE st := by
  cases hg : goData (loadJson PREMIOS_FILE st).2 with
  | none =>
    simp [migratePremios, wholeDocPayload, hg, tracePayloads, dbOps_map_msg]
  | some v =>
    cases he : err (DbOp.set ("premios") ("general") v) <;>
      simp [migratePremios, wholeDocPayload, hg, he, tracePayloads_append,
        tracePayloads, dbOps, dbOps_map_msg, opPayloads,
        List.filterMap_cons]

theorem migrateHorarios_payloads (st : FileState) (err : ErrOracle) :
    tracePayloads (migrateHorarios st err).1 =
      wrapPayload HORARIOS_ZULIA_FILE st := by
  cases hg : goData (loadJson HORARIOS_ZULIA_FILE st).2 with
  | none =>
    simp [migrateHorarios, wrapPayload, hg, tracePayloads, dbOps_map_msg]
  | some v =>
    cases he : err (DbOp.set ("horarios_zulia") ("horarios_principales")
        (JValue.obj [("horarios", v)])) with
    | none =>
      cases hl : pyLen v <;>
        simp [migrateHorarios, wrapPayload, hg, he, hl, tracePayloads_append,
          tracePayloads, dbOps, dbOps_map_msg, opPayloads,
          List.filterMap_cons]
    | some e =>
      simp [migrateHorarios, wrapPayload, hg, he, tracePayloads_append,
        tracePayloads, dbOps, dbOps_map_msg, opPayloads,
        List.filterMap_cons]

theorem migrateVentas_structSeq (v : JValue) (xs : List JValue)
    (err : ErrOracle) (ht : truthy v = true) (hv : pySeq v = some xs) :
    migrateVentas (.content v) err =
      (((pyRange xs.length 500).map (ventasBatch err xs)).flatten ++
        [.msg ("Migradas " ++ toString xs.length ++
          " ventas a la colección \u0027ventas\u0027.")], false) := by
  simp only [migrateVentas, loadJson, goData, ht, if_true, hv]
  simp

theorem migrateGanadores_structIter (v : JValue) (items : List JValue)
    (err : ErrOracle) (ht : truthy v = true) (hv : pyIter v = some items) :
    migrateGanadores (.content v) err =
      ((items.map (addRecord err ("ganadores")
          ("Error al migrar ganador: "))).flatten ++
        [.msg ("Migrados " ++ toString items.length ++
          " ganadores a la colección \u0027ganadores\u0027.")], false) := by
  simp only [migrateGanadores, loadJson, goData, ht, if_true, hv]
  simp

theorem migrateResultados_structIter (v : JValue) (items : List JValue)
    (err : ErrOracle) (ht : truthy v = true) (hv : pyIter v = some items) :
    migrateResultados (.content v) err =
      ((items.map (addRecord err ("resultados_zulia")
          ("Error al migrar resultado de Zulia: "))).flatten ++
        [.msg ("Migrados " ++ toString items.length ++
          " resultados de Zulia a la colección \u0027resultados_zulia\u0027.")],
        false) := by
  simp only [migrateResultados, loadJson, goData, ht, if_true, hv]
  simp

theorem migrateComprobantes_structIter (v : JValue) (items : List JValue)
    (err : ErrOracle) (ht : truthy v = true) (hv : pyIter v = some items) :
    migrateComprobantes (.content v) err =
      ((items.map (addRecord err ("comprobantes")
          ("Error al migrar comprobante: "))).flatten ++
        [.msg ("Migrados " ++ toString items.length ++
          " comprobantes a la colección \u0027comprobantes\u0027.")], false) := by
  simp only [migrateComprobantes, loadJson, goData, ht, if_true, hv]
  simp

theorem migrateNumeros_payloads (st : FileState) (err : ErrOracle)
    (h : numerosSafe st = true) :
    tracePayloads (migrateNumeros st err).1 = seqPayload NUMEROS_FILE st := by
  cases st with
  | absent => rfl
  | invalid e => rfl
  | content v =>
    by_cases ht : truthy v = true
    · cases v with
      | arr xs =>
        have hk : allKeyed xs := by
          intro it hit
          exact List.all_eq_true.mp (by simpa [numerosSafe] using h) it hit
        rw [migrateNumeros_payloadsArr xs err hk]
        simp [seqPayload, loadJson, goData, ht, pySeq]
      | null => simp [truthy] at ht
      | bool b =>
        simp [truthy] at ht
        simp [numerosSafe, truthy, ht] at h
      | num n => simp [numerosSafe, ht] at h
      | str s => simp [numerosSafe, ht] at h
      | obj fs => simp [numerosSafe, ht] at h
    · have ht' := truthy_of_not_true ht
      simp [migrateNumeros, loadJson, goData, ht', seqPayload, tracePayloads,
        dbOps_map_msg, dbOps]

theorem migrateVentas_payloads (st : FileState) (err : ErrOracle)
    (h : seqSafe st = true) :
    tracePayloads (migrateVentas st err).1 = seqPayload VENTAS_FILE st := by
  cases st with
  | absent => rfl
  | invalid e => rfl
  | content v =>
    by_cases ht : truthy v = true
    · cases hp : pySeq v with
      | some xs =>
        rw [migrateVentas_structSeq v xs err ht hp]
        rw [tracePayloads_append, tracePayloads_flatten, List.map_map]
        have hmap : (pyRange xs.length 500).map
            (tracePayloads ∘ ventasBatch err xs) =
            (pyRange xs.length 500).map (fun i => (xs.drop i).take 500) :=
          List.map_congr_left (fun i _ => (ventasBatch_parts err xs i).2)
        rw [hmap]
        have hseg : (pyRange xs.length 500).map
            (fun i => (xs.drop i).take 500) = segmentsOf 500 xs := rfl
        rw [hseg, segmentsOf_flatten 500 (by omega) xs]
        simp [seqPayload, loadJson, goData, ht, hp, tracePayloads, dbOps]
      | none => simp [seqSafe, hp, ht] at h
    · have ht' := truthy_of_not_true ht
      simp [migrateVentas, loadJson, goData, ht', seqPayload, tracePayloads,
        dbOps_map_msg, dbOps]

theorem migrateGanadores_payloads (st : FileState) (err : ErrOracle)
    (h : iterSafe st = true) :
    tracePayloads (migrateGanadores st err).1 =
      iterPayload GANADORES_FILE st := by
  cases st with
  | absent => rfl
  | invalid e => rfl
  | content v =>
    by_cases ht : truthy v = true
    · cases hp : pyIter v with
      | some items =>
        rw [migrateGanadores_structIter v items err ht hp,
          tracePayloads_append, fanout_payloads]
        simp [iterPayload, loadJson, goData, ht, hp, tracePayloads, dbOps]
      | none => simp [iterSafe, hp, ht] at h
    · have ht' := truthy_of_not_true ht
      simp [migrateGanadores, loadJson, goData, ht', iterPayload,
        tracePayloads, dbOps_map_msg, dbOps]

theorem migrateResultados_payloads (st : FileState) (err : ErrOracle)
    (h : iterSafe st = true) :
    tracePayloads (migrateResultados st err).1 =
      iterPayload RESULTADOS_ZULIA_FILE st := by
  cases st with
  | absent => rfl
  | invalid e => rfl
  | content v =>
    by_cases ht : truthy v = true
    · cases hp : pyIter v with
      | some items =>
        rw [migrateResultados_structIter v items err ht hp,
          tracePayloads_append, fanout_payloads]
        simp [iterPayload, loadJson, goData, ht, hp, tracePayloads, dbOps]
      | none => simp [iterSafe, hp, ht] at h
    · have ht' := truthy_of_not_true ht
      simp [migrateResultados, loadJson, goData, ht', iterPayload,
        tracePayloads, dbOps_map_msg, dbOps]

theorem migrateComprobantes_payloads (st : FileState) (err : ErrOracle)
    (h : iterSafe st = true) :
    tracePayloads (migrateComprobantes st err).1 =
      iterPayload COMPROBANTES_FILE st := by
  cases st with
  | absent => rfl
  | invalid e => rfl
  | content v =>
    by_cases ht : truthy v = true
    · cases hp : pyIter v with
      | some items =>
        rw [migrateComprobantes_structIter v items err ht hp,
          tracePayloads_append, fanout_payloads]
        simp [iterPayload, loadJson, goData, ht, hp, tracePayloads, dbOps]
      | none => simp [iterSafe, hp, ht] at h
    · have ht' := truthy_of_not_true ht
      simp [migrateComprobantes, loadJson, goData, ht', iterPayload,
        tracePayloads, dbOps_map_msg, dbOps]

/-! ### Whole-run structure -/

theorem migrateData_noCrash (files : String → FileState) (err : ErrOracle)
    (h2 : numerosSafe (files NUMEROS_FILE) = true)
    (h4 : iterSafe (files GANADORES_FILE) = true)
    (h6 : seqSafe (files VENTAS_FILE) = true)
    (h7 : iterSafe (files RESULTADOS_ZULIA_FILE) = true)
    (h8 : iterSafe (files COMPROBANTES_FILE) = true) :
    migrateData files err =
      (Event.msg ("Iniciando migración de datos a Firestore...") ::
        ((migrateConfiguracion (files CONFIGURACION_FILE) err).1 ++
          ((migrateNumeros (files NUMEROS_FILE) err).1 ++
            ((migrateHorarios (files HORARIOS_ZULIA_FILE) err).1 ++
              ((migrateGanadores (files GANADORES_FILE) err).1 ++
                ((migratePremios (files PREMIOS_FILE) err).1 ++
                  ((migrateVentas (files VENTAS_FILE) err).1 ++
                    ((migrateResultados (files RESULTADOS_ZULIA_FILE) err).1 ++
                      ((migrateComprobantes (files COMPROBANTES_FILE) err).1 ++
                        finalMsgs)))))))), false) := by
  have hall : ∀ p ∈
      [migrateConfiguracion (files CONFIGURACION_FILE) err,
        migrateNumeros (files NUMEROS_FILE) err,
        migrateHorarios (files HORARIOS_ZULIA_FILE) err,
        migrateGanadores (files GANADORES_FILE) err,
        migratePremios (files PREMIOS_FILE) err,
        migrateVentas (files VENTAS_FILE) err,
        migrateResultados (files RESULTADOS_ZULIA_FILE) err,
        migrateComprobantes (files COMPROBANTES_FILE) err], p.2 = false := by
    intro p hp
    simp only [List.mem_cons, List.not_mem_nil, or_false] at hp
    rcases hp with rfl | rfl | rfl | rfl | rfl | rfl | rfl | rfl
    · exact migrateConfiguracion_snd _ _
    · exact migrateNumeros_snd _ _ h2
    · exact migrateHorarios_snd _ _
    · exact migrateGanadores_snd _ _ h4
    · exact migratePremios_snd _ _
    · exact migrateVentas_snd _ _ h6
    · exact migrateResultados_snd _ _ h7
    · exact migrateComprobantes_snd _ _ h8
  unfold migrateData
  rw [seqRun_noCrash _ hall]
  simp

/-! ### Destination store semantics -/

/-- Modelled from the spec: §6 gives the destination's only contract —
"create/overwrite document at collection+id" and "batch-commit a group
of such writes" — and destination-assigned identity is "a record key
generated by the storage service"; the service itself is outside the
repository.  A store maps collection and document id to content;
assigned ids are fresh counter names, which never collide with the ids
the migrator addresses explicitly since those live in other
collections. -/
structure Store where
  doc : String → String → Option JValue
  auto : Nat

def emptyStore : Store := ⟨fun _ _ => none, 0⟩

def applyWrite (st : Store) (w : BatchWrite) : Store :=
  match w.docId with
  | some id =>
    ⟨fun c d => if c == w.coll && d == id then some w.data else st.doc c d,
      st.auto⟩
  | none =>
    ⟨fun c d =>
      if c == w.coll && d == ("_auto" ++ toString st.auto) then some w.data
      else st.doc c d, st.auto + 1⟩

def applyOp (st : Store) : DbOp → Store
  | .set coll dc d => applyWrite st ⟨coll, some dc, d⟩
  | .add coll d => applyWrite st ⟨coll, none, d⟩
  | .commit ws => ws.foldl applyWrite st

/-- The store at the end of a run: every successful operation applied in
execution order. -/
def runStore (evs : List Event) : Store :=
  (succOps evs).foldl applyOp emptyStore

theorem applyWrite_doc_hit (st : Store) (w : BatchWrite) (c k : String)
    (hc : w.coll = c) (hd : w.docId = some k) :
    (applyWrite st w).doc c k = some w.data := by
  subst hc
  simp [applyWrite, hd]

theorem applyWrite_doc_miss (st : Store) (w : BatchWrite) (c k id : String)
    (hd : w.docId = some id) (h : w.coll ≠ c ∨ id ≠ k) :
    (applyWrite st w).doc c k = st.doc c k := by
  simp only [applyWrite, hd]
  rw [if_neg]
  intro hcon
  rcases h with h | h
  · exact h (beq_iff_eq.mp ((Bool.and_eq_true _ _).mp hcon).1).symm
  · exact h (beq_iff_eq.mp ((Bool.and_eq_true _ _).mp hcon).2).symm

/-- Folding keyed writes: a document ends up holding the payload of the
last write addressed to it (last-write-wins of the overwrite contract). -/
theorem foldl_applyWrite_doc (ws : List BatchWrite) (st : Store)
    (c k : String) (hk : ∀ w ∈ ws, w.docId ≠ none) :
    (ws.foldl applyWrite st).doc c k =
      match (ws.filter
          (fun w => w.coll == c && w.docId == some k)).getLast? with
      | some w => some w.data
      | none => st.doc c k := by
  induction ws generalizing st with
  | nil => rfl
  | cons w rest ih =>
    rw [List.foldl_cons, ih _ (fun x hx => hk x (by simp [hx]))]
    obtain ⟨id, hid⟩ := Option.ne_none_iff_exists'.mp (hk w (by simp))
    by_cases hw : (w.coll == c && w.docId == some k) = true
    · rw [List.filter_cons, if_pos hw]
      have hcc : w.coll = c := by
        have := (Bool.and_eq_true _ _).mp hw
        exact beq_iff_eq.mp this.1
      have hdd : w.docId = some k := by
        have := (Bool.and_eq_true _ _).mp hw
        exact beq_iff_eq.mp this.2
      cases hfil : rest.filter (fun w => w.coll == c && w.docId == some k) with
      | nil =>
        simp only [hfil, List.getLast?_nil, List.getLast?_singleton]
        exact applyWrite_doc_hit st w c k hcc hdd
      | cons w2 l2 =>
        simp only [hfil, List.getLast?_cons_cons]
        cases hlast : (w2 :: l2).getLast? with
        | none =>
          rw [List.getLast?_eq_none_iff] at hlast
          cases hlast
        | some y => rfl
    · rw [List.filter_cons, if_neg hw]
      have hmiss : w.coll ≠ c ∨ id ≠ k := by
        by_cases hc : w.coll = c
        · right
          intro hkk
          apply hw
          subst hkk hc
          simp [hid]
        · exact Or.inl hc
      cases hfil :
          rest.filter (fun w => w.coll == c && w.docId == some k) <;>
        simp [applyWrite_doc_miss st w c k id hid hmiss]

theorem foldl_applyOp_commits (ls : List (List BatchWrite)) (st : Store) :
    (ls.map DbOp.commit).foldl applyOp st = ls.flatten.foldl applyWrite st := by
  induction ls generalizing st with
  | nil => rfl
  | cons ws rest ih => simp [applyOp, ih, List.foldl_append]

/-! ### Whole-run write list for a numeros-only file system -/

/-- The oracle of a fully successful run: every write is accepted. -/
def noErrOracle : ErrOracle := fun _ => none

/-- A file system holding only the numeros fixture. -/
def numerosOnly (xs : List JValue) : String → FileState :=
  fun f => if f == NUMEROS_FILE then .content (.arr xs) else .absent

theorem succOps_cons_msg (s : String) (evs : List Event) :
    succOps (Event.msg s :: evs) = succOps evs := rfl

theorem migrateNumeros_succOps_noErr (xs : List JValue) (h : allKeyed xs) :
    succOps (migrateNumeros (.content (.arr xs)) noErrOracle).1 =
      (segmentsOf 500 xs).map (fun seg => DbOp.commit (stagedWrites seg)) := by
  rcases eq_or_ne xs [] with rfl | hne
  · rw [segmentsOf_nil]
    rfl
  · rw [migrateNumeros_struct xs noErrOracle h hne]
    rw [succOps_append, succOps_flatten, List.map_map]
    have hmap : (pyRange xs.length 500).map
        (succOps ∘ fun i => (numerosBatch noErrOracle xs i).1) =
        (pyRange xs.length 500).map (fun i => [numerosCommit xs i]) := by
      apply List.map_congr_left
      intro i _
      rw [Function.comp_apply, numerosBatch_eq noErrOracle xs i h]
      rfl
    rw [hmap, flatten_map_singleton]
    simp [segmentsOf, List.map_map, succOps, numerosCommit, Function.comp_def]

theorem numerosSafe_of_allKeyed (xs : List JValue) (h : allKeyed xs) :
    numerosSafe (.content (.arr xs)) = true := by
  simp only [numerosSafe]
  exact List.all_eq_true.mpr (fun it hit => h it hit)

theorem migrateData_numerosOnly_succOps (xs : List JValue)
    (h : allKeyed xs) :
    succOps (migrateData (numerosOnly xs) noErrOracle).1 =
      (segmentsOf 500 xs).map (fun seg => DbOp.commit (stagedWrites seg)) := by
  have hnum : numerosOnly xs NUMEROS_FILE = .content (.arr xs) := rfl
  rw [migrateData_noCrash (numerosOnly xs) noErrOracle
    (by rw [hnum]; exact numerosSafe_of_allKeyed xs h) rfl rfl rfl rfl]
  rw [succOps_cons_msg]
  have g1 : numerosOnly xs CONFIGURACION_FILE = .absent := rfl
  have g3 : numerosOnly xs HORARIOS_ZULIA_FILE = .absent := rfl
  have g4 : numerosOnly xs GANADORES_FILE = .absent := rfl
  have g5 : numerosOnly xs PREMIOS_FILE = .absent := rfl
  have g6 : numerosOnly xs VENTAS_FILE = .absent := rfl
  have g7 : numerosOnly xs RESULTADOS_ZULIA_FILE = .absent := rfl
  have g8 : numerosOnly xs COMPROBANTES_FILE = .absent := rfl
  rw [hnum, g1, g3, g4, g5, g6, g7, g8]
  simp only [succOps_append]
  rw [migrateNumeros_succOps_noErr xs h]
  have e1 : succOps (migrateConfiguracion FileState.absent noErrOracle).1 = [] := rfl
  have e3 : succOps (migrateHorarios FileState.absent noErrOracle).1 = [] := rfl
  have e4 : succOps (migrateGanadores FileState.absent noErrOracle).1 = [] := rfl
  have e5 : succOps (migratePremios FileState.absent noErrOracle).1 = [] := rfl
  have e6 : succOps (migrateVentas FileState.absent noErrOracle).1 = [] := rfl
  have e7 : succOps (migrateResultados FileState.absent noErrOracle).1 = [] := rfl
  have e8 : succOps (migrateComprobantes FileState.absent noErrOracle).1 = [] := rfl
  have ef : succOps finalMsgs = [] := rfl
  rw [e1, e3, e4, e5, e6, e7, e8, ef]
  simp

/-- The writes staged for the items of interest survive filtering by
their own collection and key. -/
theorem stagedWrites_filter (xs : List JValue) (k : String) :
    (stagedWrites xs).filter
        (fun w => w.coll == ("numeros") && w.docId == some k) =
      stagedWrites (xs.filter (fun it => numeroKey it == some k)) := by
  unfold stagedWrites
  rw [List.filter_map]
  congr 1

theorem migrateGanadores_dbOps (items : List JValue) (err : ErrOracle) :
    dbOps (migrateGanadores (.content (.arr items)) err).1 =
      items.map (DbOp.add ("ganadores")) := by
  rcases eq_or_ne items [] with rfl | hne
  · rfl
  · rw [migrateGanadores_struct items err hne, dbOps_append, fanout_dbOps]
    simp [dbOps]

theorem migrateResultados_dbOps (items : List JValue) (err : ErrOracle) :
    dbOps (migrateResultados (.content (.arr items)) err).1 =
      items.map (DbOp.add ("resultados_zulia")) := by
  rcases eq_or_ne items [] with rfl | hne
  · rfl
  · rw [migrateResultados_struct items err hne, dbOps_append, fanout_dbOps]
    simp [dbOps]

theorem migrateComprobantes_dbOps (items : List JValue) (err : ErrOracle) :
    dbOps (migrateComprobantes (.content (.arr items)) err).1 =
      items.map (DbOp.add ("comprobantes")) := by
  rcases eq_or_ne items [] with rfl | hne
  · rfl
  · rw [migrateComprobantes_struct items err hne, dbOps_append, fanout_dbOps]
    simp [dbOps]

theorem migrateGanadores_errMsgMem (items : List JValue) (err : ErrOracle)
    (it : JValue) (e : String) (hit : it ∈ items)
    (he : err (DbOp.add ("ganadores") it) = some e) :
    ("Error al migrar ganador: " ++ JValue.render it ++ " - " ++ e) ∈
      msgs (migrateGanadores (.content (.arr items)) err).1 := by
  have hne : items ≠ [] := by
    rintro rfl
    cases hit
  rw [migrateGanadores_struct items err hne, msgs_append]
  exact List.mem_append_left _
    (fanout_errMsg err ("ganadores") ("Error al migrar ganador: ")
      items it e hit he)

theorem migrateResultados_errMsgMem (items : List JValue) (err : ErrOracle)
    (it : JValue) (e : String) (hit : it ∈ items)
    (he : err (DbOp.add ("resultados_zulia") it) = some e) :
    ("Error al migrar resultado de Zulia: " ++ JValue.render it ++ " - " ++ e) ∈
      msgs (migrateResultados (.content (.arr items)) err).1 := by
  have hne : items ≠ [] := by
    rintro rfl
    cases hit
  rw [migrateResultados_struct items err hne, msgs_append]
  exact List.mem_append_left _
    (fanout_errMsg err ("resultados_zulia")
      ("Error al migrar resultado de Zulia: ") items it e hit he)

theorem migrateComprobantes_errMsgMem (items : List JValue) (err : ErrOracle)
    (it : JValue) (e : String) (hit : it ∈ items)
    (he : err (DbOp.add ("comprobantes") it) = some e) :
    ("Error al migrar comprobante: " ++ JValue.render it ++ " - " ++ e) ∈
      msgs (migrateComprobantes (.content (.arr items)) err).1 := by
  have hne : items ≠ [] := by
    rintro rfl
    cases hit
  rw [migrateComprobantes_struct items err hne, msgs_append]
  exact List.mem_append_left _
    (fanout_errMsg err ("comprobantes") ("Error al migrar comprobante: ")
      items it e hit he)

/-- The eight sections of `migrate_data` with the fixture file each one
loads. -/
def sectionTable :
    List ((FileState → ErrOracle → List Event × Bool) × String) :=
  [(migrateConfiguracion, CONFIGURACION_FILE),
    (migrateNumeros, NUMEROS_FILE),
    (migrateHorarios, HORARIOS_ZULIA_FILE),
    (migrateGanadores, GANADORES_FILE),
    (migratePremios, PREMIOS_FILE),
    (migrateVentas, VENTAS_FILE),
    (migrateResultados, RESULTADOS_ZULIA_FILE),
    (migrateComprobantes, COMPROBANTES_FILE)]

/-! ### Claim theorems -/

/-- C2: for every input file whose bytes the encoder successfully reads,
the encoder prints the start marker, the base64 text, the end marker and
the hint line, and base64-decoding the text printed between the markers
reproduces the original file bytes exactly. -/
theorem claim2_encoder_roundtrip (bs : List Nat) (h : ∀ b ∈ bs, b < 256) :
    encodeKeyRun (KeyFile.bytes bs) =
      [MARK_START, String.mk (b64encodeBytes bs), MARK_END,
        "\nCopia el texto entre \u0027--- COMIENZO ---\u0027 y \u0027--- FIN ---\u0027 y pégalo en Render."]
    ∧ b64decodeChars (String.mk (b64encodeBytes bs)).toList = bs :=
  ⟨rfl, b64_decode_encode bs h⟩

theorem claim2_encoder_roundtrip_witness :
    (∀ b ∈ [104, 111, 108, 97], b < 256)
    ∧ (encodeKeyRun (KeyFile.bytes [104, 111, 108, 97]) =
        [MARK_START, String.mk (b64encodeBytes [104, 111, 108, 97]), MARK_END,
          "\nCopia el texto entre \u0027--- COMIENZO ---\u0027 y \u0027--- FIN ---\u0027 y pégalo en Render."]
      ∧ b64decodeChars
          (String.mk (b64encodeBytes [104, 111, 108, 97])).toList =
          [104, 111, 108, 97]) :=
  ⟨by decide, claim2_encoder_roundtrip [104, 111, 108, 97] (by decide)⟩

set_option maxRecDepth 4096 in
/-- C9: when the credential file is absent the encoder prints exactly one
line, that line is an error line, and neither marker nor any encoded text
is printed. -/
theorem claim9_encoder_missing_file :
    (encodeKeyRun KeyFile.absent).length = 1
    ∧ MARK_START ∉ encodeKeyRun KeyFile.absent
    ∧ MARK_END ∉ encodeKeyRun KeyFile.absent
    ∧ (encodeKeyRun KeyFile.absent).all
        (fun s => s.take 5 == "Error") = true := by
  refine ⟨rfl, by decide, by decide, rfl⟩

/-- C1: for every fixtures list processed by a batched fan-out section
(numeros with explicit ids, ventas with assigned ids), the section
issues exactly ⌈N/500⌉ batch commits, every batch holds at most 500
records, the batches laid end to end are exactly the N source records,
and the payloads actually submitted are exactly those records. -/
theorem claim1_batched_fanout (xs ys : List JValue) (err : ErrOracle)
    (hk : allKeyed xs) :
    ((segmentsOf 500 xs).length = (xs.length + 499) / 500
      ∧ (∀ b ∈ segmentsOf 500 xs, b.length ≤ 500)
      ∧ (segmentsOf 500 xs).flatten = xs
      ∧ dbOps (migrateNumeros (.content (.arr xs)) err).1 =
          (segmentsOf 500 xs).map (fun seg => DbOp.commit (stagedWrites seg))
      ∧ tracePayloads (migrateNumeros (.content (.arr xs)) err).1 = xs)
    ∧ ((segmentsOf 500 ys).length = (ys.length + 499) / 500
      ∧ (∀ b ∈ segmentsOf 500 ys, b.length ≤ 500)
      ∧ (segmentsOf 500 ys).flatten = ys
      ∧ dbOps (migrateVentas (.content (.arr ys)) err).1 =
          (segmentsOf 500 ys).map (fun seg => DbOp.commit (autoWrites seg))
      ∧ tracePayloads (migrateVentas (.content (.arr ys)) err).1 = ys) := by
  constructor
  · refine ⟨?_, segmentsOf_le 500 xs, segmentsOf_flatten 500 (by omega) xs,
      migrateNumeros_dbOps xs err hk, migrateNumeros_payloadsArr xs err hk⟩
    simp only [segmentsOf, List.length_map, pyRange_length]
    omega
  · refine ⟨?_, segmentsOf_le 500 ys, segmentsOf_flatten 500 (by omega) ys,
      migrateVentas_dbOps ys err, migrateVentas_payloadsArr ys err⟩
    simp only [segmentsOf, List.length_map, pyRange_length]
    omega

/-- Concrete fixtures for the batching witness. -/
def witXs : List JValue :=
  [JValue.obj [("numero", JValue.str "007"), ("idx", JValue.num 7)],
    JValue.obj [("numero", JValue.str "008")]]

def witYs : List JValue := [JValue.num 1, JValue.num 2, JValue.num 3]

theorem claim1_batched_fanout_witness :
    allKeyed witXs
    ∧ (((segmentsOf 500 witXs).length = (witXs.length + 499) / 500
      ∧ (∀ b ∈ segmentsOf 500 witXs, b.length ≤ 500)
      ∧ (segmentsOf 500 witXs).flatten = witXs
      ∧ dbOps (migrateNumeros (.content (.arr witXs)) noErrOracle).1 =
          (segmentsOf 500 witXs).map
            (fun seg => DbOp.commit (stagedWrites seg))
      ∧ tracePayloads
          (migrateNumeros (.content (.arr witXs)) noErrOracle).1 = witXs)
    ∧ ((segmentsOf 500 witYs).length = (witYs.length + 499) / 500
      ∧ (∀ b ∈ segmentsOf 500 witYs, b.length ≤ 500)
      ∧ (segmentsOf 500 witYs).flatten = witYs
      ∧ dbOps (migrateVentas (.content (.arr witYs)) noErrOracle).1 =
          (segmentsOf 500 witYs).map
            (fun seg => DbOp.commit (autoWrites seg))
      ∧ tracePayloads
          (migrateVentas (.content (.arr witYs)) noErrOracle).1 = witYs)) :=
  ⟨by unfold allKeyed
      decide,
    claim1_batched_fanout witXs witYs noErrOracle
      (by unfold allKeyed
          decide)⟩

/-- C4: in both batched sections every batch commit is attempted no
matter what the write outcomes are (a rejected batch never stops the
batching loop), and a failed commit is reported with its exception
text. -/
theorem claim4_batch_isolation (xs ys : List JValue) (err : ErrOracle)
    (hk : allKeyed xs) :
    (dbOps (migrateNumeros (.content (.arr xs)) err).1 =
        (segmentsOf 500 xs).map (fun seg => DbOp.commit (stagedWrites seg))
      ∧ ∀ i ∈ pyRange xs.length 500, ∀ e,
          err (numerosCommit xs i) = some e →
          ("Error al comprometer batch de números: " ++ e) ∈
            msgs (migrateNumeros (.content (.arr xs)) err).1)
    ∧ (dbOps (migrateVentas (.content (.arr ys)) err).1 =
        (segmentsOf 500 ys).map (fun seg => DbOp.commit (autoWrites seg))
      ∧ ∀ i ∈ pyRange ys.length 500, ∀ e,
          err (ventasCommit ys i) = some e →
          ("Error al comprometer batch de ventas: " ++ e) ∈
            msgs (migrateVentas (.content (.arr ys)) err).1) :=
  ⟨⟨migrateNumeros_dbOps xs err hk,
    fun i hi e he => migrateNumeros_errMsgMem xs err i e hk hi he⟩,
    ⟨migrateVentas_dbOps ys err,
      fun i hi e he => migrateVentas_errMsgMem ys err i e hi he⟩⟩

/-- The oracle of a run in which the service rejects every write. -/
def failOracle : ErrOracle := fun _ => some "boom"

theorem claim4_batch_isolation_witness :
    allKeyed witXs
    ∧ 0 ∈ pyRange witXs.length 500
    ∧ failOracle (numerosCommit witXs 0) = some "boom"
    ∧ 0 ∈ pyRange witYs.length 500
    ∧ failOracle (ventasCommit witYs 0) = some "boom"
    ∧ ("Error al comprometer batch de números: " ++ "boom") ∈
        msgs (migrateNumeros (.content (.arr witXs)) failOracle).1
    ∧ ("Error al comprometer batch de ventas: " ++ "boom") ∈
        msgs (migrateVentas (.content (.arr witYs)) failOracle).1 := by
  have hk : allKeyed witXs := by
    unfold allKeyed
    decide
  refine ⟨hk, by decide, rfl, by decide, rfl, ?_, ?_⟩
  · exact (claim4_batch_isolation witXs witYs failOracle hk).1.2 0
      (by decide) ("boom") rfl
  · exact (claim4_batch_isolation witXs witYs failOracle hk).2.2 0
      (by decide) ("boom") rfl

/-- C8: in each unbatched fan-out section (ganadores, resultados_zulia,
comprobantes) every record is attempted as its own `add` no matter what
the write outcomes are, and a failed record is reported together with the
record's rendered content and the exception text. -/
theorem claim8_record_isolation (items : List JValue) (err : ErrOracle) :
    (dbOps (migrateGanadores (.content (.arr items)) err).1 =
        items.map (DbOp.add ("ganadores"))
      ∧ ∀ it ∈ items, ∀ e, err (DbOp.add ("ganadores") it) = some e →
          ("Error al migrar ganador: " ++ JValue.render it ++ " - " ++ e) ∈
            msgs (migrateGanadores (.content (.arr items)) err).1)
    ∧ (dbOps (migrateResultados (.content (.arr items)) err).1 =
        items.map (DbOp.add ("resultados_zulia"))
      ∧ ∀ it ∈ items, ∀ e, err (DbOp.add ("resultados_zulia") it) = some e →
          ("Error al migrar resultado de Zulia: " ++ JValue.render it ++
            " - " ++ e) ∈
            msgs (migrateResultados (.content (.arr items)) err).1)
    ∧ (dbOps (migrateComprobantes (.content (.arr items)) err).1 =
        items.map (DbOp.add ("comprobantes"))
      ∧ ∀ it ∈ items, ∀ e, err (DbOp.add ("comprobantes") it) = some e →
          ("Error al migrar comprobante: " ++ JValue.render it ++
            " - " ++ e) ∈
            msgs (migrateComprobantes (.content (.arr items)) err).1) :=
  ⟨⟨migrateGanadores_dbOps items err,
    fun it hit e he => migrateGanadores_errMsgMem items err it e hit he⟩,
    ⟨migrateResultados_dbOps items err,
      fun it hit e he => migrateResultados_errMsgMem items err it e hit he⟩,
    ⟨migrateComprobantes_dbOps items err,
      fun it hit e he => migrateComprobantes_errMsgMem items err it e hit he⟩⟩

/-- Concrete record for the fan-out witness. -/
def witRec : JValue := JValue.obj [("g", JValue.num 7)]

theorem claim8_record_isolation_witness :
    witRec ∈ [witRec]
    ∧ failOracle (DbOp.add ("ganadores") witRec) = some "boom"
    ∧ dbOps (migrateGanadores (.content (.arr [witRec])) failOracle).1 =
        [witRec].map (DbOp.add ("ganadores"))
    ∧ ("Error al migrar ganador: " ++ JValue.render witRec ++ " - " ++
        "boom") ∈
        msgs (migrateGanadores (.content (.arr [witRec])) failOracle).1 :=
  ⟨by simp, rfl,
    (claim8_record_isolation [witRec] failOracle).1.1,
    (claim8_record_isolation [witRec] failOracle).1.2 witRec (by simp)
      ("boom") rfl⟩

/-- A file system on which the claimed isolation fails: the numeros
fixture loads fine but holds an item without a `"numero"` key, and the
ganadores fixture is present and non-empty. -/
def crashFiles : String → FileState := fun f =>
  if f == NUMEROS_FILE then
    .content (.arr [JValue.obj [("x", JValue.num 1)]])
  else if f == GANADORES_FILE then
    .content (.arr [JValue.obj [("g", JValue.num 7)]])
  else .absent

/-- C3 counterexample: with every write outcome a success, a numeros item
lacking a string `"numero"` key makes line 94 raise outside every `try`;
the run aborts (crash flag) and no database operation is ever attempted
for the present, truthy ganadores fixture — or for anything else. -/
theorem claim3_counterexample :
    crashFiles GANADORES_FILE =
      FileState.content (JValue.arr [JValue.obj [("g", JValue.num 7)]])
    ∧ (migrateData crashFiles noErrOracle).2 = true
    ∧ dbOps (migrateData crashFiles noErrOracle).1 = [] :=
  ⟨rfl, rfl, rfl⟩

/-- C3 amended: provided no loaded fixture makes the migrator raise
outside a `try` block (numeros: a list of dicts each holding a string
`"numero"`; ventas: a sequence; ganadores, resultados, comprobantes: an
iterable), the run is the concatenation of the eight sections, each
applied to its own fixture file only, for every combination of load
outcomes and write outcomes — so a load or write failure in one fixture
cannot prevent the attempts on the others. -/
theorem claim3_fixture_isolation (files : String → FileState)
    (err : ErrOracle)
    (h2 : numerosSafe (files NUMEROS_FILE) = true)
    (h4 : iterSafe (files GANADORES_FILE) = true)
    (h6 : seqSafe (files VENTAS_FILE) = true)
    (h7 : iterSafe (files RESULTADOS_ZULIA_FILE) = true)
    (h8 : iterSafe (files COMPROBANTES_FILE) = true) :
    migrateData files err =
      (Event.msg ("Iniciando migración de datos a Firestore...") ::
        ((migrateConfiguracion (files CONFIGURACION_FILE) err).1 ++
          ((migrateNumeros (files NUMEROS_FILE) err).1 ++
            ((migrateHorarios (files HORARIOS_ZULIA_FILE) err).1 ++
              ((migrateGanadores (files GANADORES_FILE) err).1 ++
                ((migratePremios (files PREMIOS_FILE) err).1 ++
                  ((migrateVentas (files VENTAS_FILE) err).1 ++
                    ((migrateResultados (files RESULTADOS_ZULIA_FILE) err).1 ++
                      ((migrateComprobantes (files COMPROBANTES_FILE) err).1 ++
                        finalMsgs)))))))), false) :=
  migrateData_noCrash files err h2 h4 h6 h7 h8

/-- A file system with well-formed numeros and ganadores fixtures. -/
def witFiles : String → FileState := fun f =>
  if f == NUMEROS_FILE then .content (.arr witXs)
  else if f == GANADORES_FILE then .content (.arr [witRec])
  else .absent

theorem claim3_fixture_isolation_witness :
    numerosSafe (witFiles NUMEROS_FILE) = true
    ∧ iterSafe (witFiles GANADORES_FILE) = true
    ∧ seqSafe (witFiles VENTAS_FILE) = true
    ∧ iterSafe (witFiles RESULTADOS_ZULIA_FILE) = true
    ∧ iterSafe (witFiles COMPROBANTES_FILE) = true
    ∧ migrateData witFiles failOracle =
      (Event.msg ("Iniciando migración de datos a Firestore...") ::
        ((migrateConfiguracion (witFiles CONFIGURACION_FILE) failOracle).1 ++
          ((migrateNumeros (witFiles NUMEROS_FILE) failOracle).1 ++
            ((migrateHorarios (witFiles HORARIOS_ZULIA_FILE) failOracle).1 ++
              ((migrateGanadores (witFiles GANADORES_FILE) failOracle).1 ++
                ((migratePremios (witFiles PREMIOS_FILE) failOracle).1 ++
                  ((migrateVentas (witFiles VENTAS_FILE) failOracle).1 ++
                    ((migrateResultados
                        (witFiles RESULTADOS_ZULIA_FILE) failOracle).1 ++
                      ((migrateComprobantes
                          (witFiles COMPROBANTES_FILE) failOracle).1 ++
                        finalMsgs)))))))), false) :=
  ⟨rfl, rfl, rfl, rfl, rfl,
    claim3_fixture_isolation witFiles failOracle rfl rfl rfl rfl rfl⟩

/-- C6 counterexample: a fixture file parsing to the empty array is an
empty fixture, and the migrator skips its collection silently — the
section's trace is empty, so no warning line is printed for it,
contradicting the claimed warning. -/
theorem claim6_counterexample :
    migrateNumeros (FileState.content (JValue.arr [])) noErrOracle =
      ([], false) := rfl

/-- C6 amended: for every one of the eight sections, an absent fixture
file is skipped with the missing-file warning, an unparseable (for
example zero-byte) fixture file is skipped with a decode-error line, and
a fixture parsing to the empty array is skipped silently; in all three
cases the section ends normally (no crash), so the remaining fixtures
are still processed. -/
theorem claim6_empty_fixture_skip
    (p : (FileState → ErrOracle → List Event × Bool) × String)
    (hp : p ∈ sectionTable) (err : ErrOracle) (e : String) :
    p.1 FileState.absent err =
      ([Event.msg ("Advertencia: Archivo \u0027" ++ p.2 ++
        "\u0027 no encontrado. Se omitirá la migración para este archivo.")],
        false)
    ∧ p.1 (FileState.invalid e) err =
      ([Event.msg ("Error al decodificar JSON en \u0027" ++ p.2 ++
        "\u0027: " ++ e)], false)
    ∧ p.1 (FileState.content (JValue.arr [])) err = ([], false) := by
  fin_cases hp <;> exact ⟨rfl, rfl, rfl⟩

theorem claim6_empty_fixture_skip_witness :
    (migrateConfiguracion, CONFIGURACION_FILE) ∈ sectionTable
    ∧ (migrateConfiguracion FileState.absent noErrOracle =
        ([Event.msg ("Advertencia: Archivo \u0027" ++ CONFIGURACION_FILE ++
          "\u0027 no encontrado. Se omitirá la migración para este archivo.")],
          false)
      ∧ migrateConfiguracion (FileState.invalid ("syntax")) noErrOracle =
        ([Event.msg ("Error al decodificar JSON en \u0027" ++
          CONFIGURACION_FILE ++ "\u0027: " ++ "syntax")], false)
      ∧ migrateConfiguracion (FileState.content (JValue.arr []))
          noErrOracle = ([], false)) :=
  ⟨List.Mem.head _,
    claim6_empty_fixture_skip (migrateConfiguracion, CONFIGURACION_FILE)
      (List.Mem.head _) noErrOracle ("syntax")⟩

/-- C5: when the numeros fixture holds exactly two elements keyed by the
same `"numero"` value, a fully successful migration leaves the document
at that key holding the later element: its write overwrote the earlier
one. -/
theorem claim5_last_write_wins (xs : List JValue) (k : String)
    (a b : JValue) (hkeys : allKeyed xs)
    (hdup : xs.filter (fun it => numeroKey it == some k) = [a, b]) :
    (runStore (migrateData (numerosOnly xs) noErrOracle).1).doc
      ("numeros") k = some b := by
  unfold runStore
  rw [migrateData_numerosOnly_succOps xs hkeys]
  have hform : (segmentsOf 500 xs).map
      (fun seg => DbOp.commit (stagedWrites seg)) =
      ((segmentsOf 500 xs).map stagedWrites).map DbOp.commit := by
    rw [List.map_map]
    rfl
  rw [hform, foldl_applyOp_commits]
  have hflat : ((segmentsOf 500 xs).map stagedWrites).flatten =
      stagedWrites xs := by
    unfold stagedWrites
    rw [← List.map_flatten, segmentsOf_flatten 500 (by omega) xs]
  rw [hflat]
  have hkd : ∀ w ∈ stagedWrites xs, w.docId ≠ none := by
    intro w hw
    rcases List.mem_map.mp hw with ⟨it, hit, rfl⟩
    have hs := hkeys it hit
    intro hnone
    simp only at hnone
    rw [hnone] at hs
    cases hs
  rw [foldl_applyWrite_doc _ _ _ _ hkd, stagedWrites_filter, hdup]
  rfl

/-- Concrete duplicate-key fixtures for the last-write-wins witness. -/
def dupA : JValue :=
  JValue.obj [("numero", JValue.str "42"), ("v", JValue.num 1)]

def dupB : JValue :=
  JValue.obj [("numero", JValue.str "42"), ("v", JValue.num 2)]

theorem claim5_last_write_wins_witness :
    allKeyed [dupA, dupB]
    ∧ [dupA, dupB].filter
        (fun it => numeroKey it == some ("42")) = [dupA, dupB]
    ∧ (runStore (migrateData (numerosOnly [dupA, dupB]) noErrOracle).1).doc
        ("numeros") ("42") = some dupB :=
  ⟨by unfold allKeyed
      decide,
    rfl,
    claim5_last_write_wins [dupA, dupB] ("42") dupA dupB
      (by unfold allKeyed
          decide) rfl⟩

/-- C7: credentials are resolved from the environment variable first —
the file is consulted only when the variable is unset or empty (Python
falsy) — and whenever building credentials or initializing the client
from the resolved source fails, the script prints its three diagnostics and
exits with no database operation ever attempted. -/
theorem claim7_credential_resolution (env : Option String)
    (credErr : CredSource → Option String) (files : String → FileState)
    (err : ErrOracle) :
    (∀ s, env = some s → s ≠ "" → resolveCred env = CredSource.fromEnv s)
    ∧ ((env = none ∨ env = some "") →
        resolveCred env = CredSource.fromFile CRED_FILE)
    ∧ (∀ e, credErr (resolveCred env) = some e →
        dbOps (runScript env credErr files err).1 = []) := by
  refine ⟨?_, ?_, ?_⟩
  · rintro s rfl hs
    have hb : (s != "") = true := bne_iff_ne.mpr hs
    simp [resolveCred, hb]
  · rintro (rfl | rfl) <;> rfl
  · intro e he
    unfold runScript
    rw [he]
    rfl

theorem claim7_credential_resolution_witness :
    (some "blob" = some "blob" ∧ "blob" ≠ "")
    ∧ resolveCred (some "blob") = CredSource.fromEnv "blob"
    ∧ (fun _ => some "no file") (resolveCred (some "blob")) =
        some "no file"
    ∧ dbOps (runScript (some "blob") (fun _ => some "no file")
        (fun _ => FileState.absent) noErrOracle).1 = [] :=
  ⟨⟨rfl, by decide⟩,
    (claim7_credential_resolution (some "blob") (fun _ => some "no file")
      (fun _ => FileState.absent) noErrOracle).1 ("blob") rfl (by decide),
    rfl,
    (claim7_credential_resolution (some "blob") (fun _ => some "no file")
      (fun _ => FileState.absent) noErrOracle).2.2 ("no file") rfl⟩

/-- C10: in a run that raises nowhere outside a `try`, the payloads
submitted to the destination are exactly the parsed source elements,
verbatim and in order — the whole parsed object for configuracion and
premios, the source elements for the four list fixtures, and for
horarios the whole parsed array wrapped unchanged under the single field
`horarios`; nothing else (no timestamp, id, or reformatted value) is
ever submitted. -/
theorem claim10_payloads_verbatim (files : String → FileState)
    (err : ErrOracle)
    (h2 : numerosSafe (files NUMEROS_FILE) = true)
    (h4 : iterSafe (files GANADORES_FILE) = true)
    (h6 : seqSafe (files VENTAS_FILE) = true)
    (h7 : iterSafe (files RESULTADOS_ZULIA_FILE) = true)
    (h8 : iterSafe (files COMPROBANTES_FILE) = true) :
    tracePayloads (migrateData files err).1 = allowedPayloads files := by
  rw [migrateData_noCrash files err h2 h4 h6 h7 h8, tracePayloads_cons_msg]
  simp only [tracePayloads_append]
  rw [migrateConfiguracion_payloads, migrateNumeros_payloads _ _ h2,
    migrateHorarios_payloads, migrateGanadores_payloads _ _ h4,
    migratePremios_payloads, migrateVentas_payloads _ _ h6,
    migrateResultados_payloads _ _ h7, migrateComprobantes_payloads _ _ h8]
  have hf : tracePayloads finalMsgs = [] := rfl
  rw [hf]
  simp [allowedPayloads]

theorem claim10_payloads_verbatim_witness :
    numerosSafe (witFiles NUMEROS_FILE) = true
    ∧ iterSafe (witFiles GANADORES_FILE) = true
    ∧ seqSafe (witFiles VENTAS_FILE) = true
    ∧ iterSafe (witFiles RESULTADOS_ZULIA_FILE) = true
    ∧ iterSafe (witFiles COMPROBANTES_FILE) = true
    ∧ tracePayloads (migrateData witFiles failOracle).1 =
        allowedPayloads witFiles :=
  ⟨rfl, rfl, rfl, rfl, rfl,
    claim10_payloads_verbatim witFiles failOracle rfl rfl rfl rfl rfl⟩
